import Mathlib

/-!
Shallow embedding of the salary calculator (rules-loader.js and
salary-engine.js of sbozich/salarycalc) and proofs about it.

Modelling conventions:
* JS numbers are modelled as rationals; IEEE-754 representation error is
  abstracted away, except that the explicit `Number.EPSILON` fudge term of
  `roundCurrency` is kept, because it is part of the source text.
* JS `null`/`undefined` object fields are modelled as `Option`; a JSON key
  that is absent is `none`.
* Values that the engine only ever coerces with `Number(...)` and that may
  be non-finite are modelled with `JSNumber` (nan, infinities, finite).
* Strings (rounding modes, bases, country codes, periods) are plain
  `String`s compared with `=`, matching the strict string comparisons of
  the source.
* The formula registry (`window.SalaryFormulaRegistry`, whose
  implementations live outside the embedded files) is an abstract
  parameter `Option FormulaRegistry`; theorems quantify over it.
-/

namespace SalaryCalc

/-- JS `Number.EPSILON` = 2 ^ (-52), used verbatim by `roundCurrency`. -/
def jsEpsilon : ℚ := 1 / 2 ^ 52

/-- JS `Math.round`: round half toward positive infinity. Written with
the executable `Rat.floor` so that concrete instances evaluate. -/
def jsRound (q : ℚ) : ℤ := (q + 1 / 2).floor

/-- `jsRound` is the mathematical floor of `q + 1/2`. -/
theorem jsRound_eq (q : ℚ) : jsRound q = ⌊q + 1 / 2⌋ := by
  rw [jsRound, Rat.floor_def', ← Rat.floor_def]

/-- JS `String.prototype.toUpperCase`, written with a structural
character map so that concrete instances evaluate by reduction. -/
def jsToUpper (s : String) : String := String.mk (s.data.map Char.toUpper)

/-- JS `String.prototype.toLowerCase`, structural for the same reason. -/
def jsToLower (s : String) : String := String.mk (s.data.map Char.toLower)

/-- JS truthiness-based numeric default: `Number(x || d)` for an optional
numeric field `x` (absent, or present with value 0, falls back to `d`). -/
def qOr (x : Option ℚ) (d : ℚ) : ℚ :=
  match x with
  | none => d
  | some q => if q = 0 then d else q

/-- JS truthiness-based string default: `x || d` (absent or empty string
falls back to `d`). -/
def strOr (x : Option String) (d : String) : String :=
  match x with
  | none => d
  | some s => if s = "" then d else s

/-- JS `x || null` on an optional string: the empty string collapses to null. -/
def strOrNull (x : Option String) : Option String :=
  match x with
  | some "" => none
  | x => x

/-- Number of decimals actually used by `roundCurrency`:
`(typeof decimals === 'number' && decimals >= 0) ? decimals : 2`. -/
def roundDecimals (decimals : Option ℤ) : ℕ :=
  match decimals with
  | some k => if 0 ≤ k then k.toNat else 2
  | none => 2

/-- salary-engine.js, `roundCurrency(value, decimals, mode)` (lines 26-39).
The `switch (mode)` statement has a single branch: `case 'nearest_cent':`
falls through to `default:`, so every mode (including the strings
`up` and `down`) performs nearest rounding. The `!isFinite(v)` guard
returning 0 has no counterpart here because every rational is finite. -/
def roundCurrency (value : ℚ) (decimals : Option ℤ) (mode : String) : ℚ :=
  let d := roundDecimals decimals
  let factor : ℚ := 10 ^ d
  match mode with
  | _ => (jsRound ((value + jsEpsilon) * factor) : ℚ) / factor

/-- Model of a JS number, distinguishing the non-finite values that the
engine tests with `isFinite`. -/
inductive JSNumber where
  | nan
  | posInf
  | negInf
  | fin (q : ℚ)
deriving DecidableEq

/-- JS `isFinite` on a modelled number. -/
def JSNumber.isFiniteB : JSNumber → Bool
  | .fin _ => true
  | _ => false

/-- JS `x < 0` on a modelled number (false for NaN). -/
def JSNumber.ltZero : JSNumber → Bool
  | .fin q => decide (q < 0)
  | .negInf => true
  | _ => false

/-- Finite payload of a modelled JS number (only read on paths where the
source has already established finiteness). -/
def JSNumber.toQ : JSNumber → ℚ
  | .fin q => q
  | _ => 0

/-- Model of the user-supplied salary amount: JS `null`/`undefined`, the
empty string, or any other value represented by its `Number(...)`
conversion. -/
inductive JSInput where
  | null
  | emptyStr
  | num (n : JSNumber)
deriving DecidableEq

/-- JS `Number(...)` of a salary input (`null` and the empty string both
convert to 0; those cases are intercepted earlier by the source). -/
def JSInput.toNumber : JSInput → JSNumber
  | .null => .fin 0
  | .emptyStr => .fin 0
  | .num n => n

/-- Shared error shape: both `RulesError` (rules-loader.js) and
`EngineError` (salary-engine.js) carry an i18n key plus a structured
details payload; the details are reduced here to the `cause` tag that the
source stores in them. -/
structure CalcError where
  i18nKey : String
  cause : Option String := none
deriving DecidableEq

/-- Association-list lookup, modelling JS object property access. -/
def lookupA {α : Type} : List (String × α) → String → Option α
  | [], _ => none
  | (k, v) :: rest, key => if k = key then some v else lookupA rest key

/-- JS object property assignment `m[k] = v` on an association list:
update in place if the key exists, else append. -/
def upsert {α : Type} : List (String × α) → String → α → List (String × α)
  | [], k, v => [(k, v)]
  | (k0, v0) :: rest, k, v =>
    if k0 = k then (k, v) :: rest else (k0, v0) :: upsert rest k v

/-- JS `m[k] = (m[k] || 0) + v` on an association list. -/
def upsertAdd : List (String × ℚ) → String → ℚ → List (String × ℚ)
  | [], k, v => [(k, v)]
  | (k0, v0) :: rest, k, v =>
    if k0 = k then (k0, v0 + v) :: rest else (k0, v0) :: upsertAdd rest k v

/-! ## Rule-document data model (JSON schema of the rule files) -/

/-- One tax or contribution bracket: `{up_to, rate}`; a missing `up_to`
means unbounded, a missing `rate` coerces to 0. -/
structure Bracket where
  up_to : Option ℚ := none
  rate : ℚ := 0
deriving DecidableEq

/-- `income_tax.formula` block: `{use_formula, method, parameters}`. -/
structure FormulaDef where
  use_formula : Option Bool := none
  method : Option String := none
  parameters : Option (List (String × ℚ)) := none
deriving DecidableEq

/-- `income_tax.allowances` block. -/
structure Allowances where
  basic_tax_free : Option ℚ := none
  employment_expense_flat : Option ℚ := none
  other_fixed : Option ℚ := none
deriving DecidableEq

/-- `income_tax.professional_deduction` block (FR). -/
structure ProfessionalDeduction where
  enabled : Option Bool := none
  rate : Option ℚ := none
  min : Option ℚ := none
  max : Option ℚ := none
deriving DecidableEq

/-- One `{up_to, base, rate, over}` tier of a segmented tax credit. -/
structure CreditSegment where
  up_to : Option ℚ := none
  base : Option ℚ := none
  rate : Option ℚ := none
  over : Option ℚ := none
deriving DecidableEq

/-- One tax-credit rule: phase-out model or segments model. -/
structure CreditRule where
  max : Option ℚ := none
  phaseout_start : Option ℚ := none
  phaseout_end : Option ℚ := none
  phaseout_rate_per_eur : Option ℚ := none
  phaseout_rate : Option ℚ := none
  segments : Option (List CreditSegment) := none
deriving DecidableEq

/-- `income_tax` rules block. The engine dispatches on `type`
(defaulting to `progressive`). -/
structure IncomeTaxRules where
  type : Option String := none
  brackets : Option (List Bracket) := none
  flat_rate : Option ℚ := none
  formula : Option FormulaDef := none
  allowances : Option Allowances := none
  professional_deduction : Option ProfessionalDeduction := none
  tax_credits : Option (List (String × CreditRule)) := none
deriving DecidableEq

/-- One Austrian low-income employee-rate tier; `employee_rate = none`
models the absence of the key (`'employee_rate' in tier`). -/
structure LowIncomeTier where
  up_to : Option ℚ := none
  employee_rate : Option ℚ := none
deriving DecidableEq

/-- `entry.employee` sub-object (UK NI style bracketed employee rates). -/
structure EmployeeContribSpec where
  brackets : Option (List Bracket) := none
deriving DecidableEq

/-- `entry.employer` sub-object (UK style thresholded employer rate);
`threshold = some t` models a finite `Number(entry.employer.threshold)`. -/
structure EmployerContribSpec where
  threshold : Option ℚ := none
  rate : Option ℚ := none
deriving DecidableEq

/-- One social-contribution scheme entry. -/
structure ContribEntry where
  applies : Option Bool := none
  label : Option String := none
  employee_rate : Option ℚ := none
  employer_rate : Option ℚ := none
  floor : Option ℚ := none
  ceiling : Option ℚ := none
  deductible_for_tax : Option Bool := none
  employee : Option EmployeeContribSpec := none
  employer : Option EmployerContribSpec := none
  low_income_employee_rate_tiers : Option (List LowIncomeTier) := none
  low_income_employee_rate_basis : Option String := none
deriving DecidableEq

/-- `social_contributions` block: named schemes plus the optional
`other` array (the `other` key is skipped by the named iteration). -/
structure SocialContributions where
  named : List (String × ContribEntry) := []
  other : Option (List ContribEntry) := none
deriving DecidableEq

/-- One `other_taxes` rule. -/
structure OtherTaxRule where
  applies : Option Bool := none
  rate : Option ℚ := none
  basis : Option String := none
  incidence : Option String := none
  free_threshold : Option ℚ := none
  taper_rate : Option ℚ := none
  standard_rate : Option ℚ := none
  cap : Option ℚ := none
  max : Option ℚ := none
deriving DecidableEq

/-- `special_payments.social_contributions` ceilings (AT). -/
structure SpecialContribCfg where
  regular_ceiling_annual : Option ℚ := none
  special_ceiling_annual : Option ℚ := none
deriving DecidableEq

/-- `special_payments` block (AT 13th/14th salary model). -/
structure SpecialPayments where
  enabled : Option Bool := none
  regular_months : Option ℚ := none
  default_salary_months : Option ℚ := none
  allowance_annual : Option ℚ := none
  income_tax : Option IncomeTaxRules := none
  social_contributions : Option SpecialContribCfg := none
deriving DecidableEq

/-- Resolved `{national, regional}` income-tax pair (ES). -/
structure RegionIncomeTax where
  national : Option IncomeTaxRules := none
  regional : Option IncomeTaxRules := none
deriving DecidableEq

/-- One entry of the `regions` map (ES). -/
structure RegionEntry where
  income_tax : Option RegionIncomeTax := none
deriving DecidableEq

/-- `calculation_flags` block. -/
structure CalcFlags where
  rounding_mode : Option String := none
  currency_decimals : Option ℤ := none
deriving DecidableEq

/-- One tax-class override fragment (DE). -/
structure TaxClassOverride where
  income_tax : Option IncomeTaxRules := none
  social_contributions : Option SocialContributions := none
  other_taxes : Option (List (String × OtherTaxRule)) := none
  taxable_income_adjustment : Option ℚ := none
deriving DecidableEq

/-- The rule subtree for one country and one tax year. Presentation-only
fields (disclaimers, notes) are omitted; no computation reads them. -/
structure YearRules where
  income_tax : Option IncomeTaxRules := none
  social_contributions : Option SocialContributions := none
  other_taxes : Option (List (String × OtherTaxRule)) := none
  calculation_flags : Option CalcFlags := none
  tax_classes : Option (List (String × TaxClassOverride)) := none
  regions : Option (List (String × RegionEntry)) := none
  default_region : Option String := none
  special_payments : Option SpecialPayments := none
deriving DecidableEq

/-- A country rule document `{name, currency, years}`. -/
structure CountryRules where
  name : Option String := none
  currency : Option String := none
  years : List (String × YearRules) := []
deriving DecidableEq

/-- CalcMode fingerprint attached to a TaxContext (rules-loader.js 394-405). -/
structure CalcMode where
  countryCode : String
  year : String
  taxClass : Option String
  method : String
deriving DecidableEq

/-- The fully resolved tax context consumed by the engine.
`calcMode` is an `Option` so that manufactured contexts lacking the
fingerprint can be expressed (the loader always sets it). -/
structure TaxContext where
  countryCode : String
  countryName : Option String := none
  currency : Option String := none
  year : String
  region : Option String := none
  taxClass : Option String := none
  yearRules : YearRules := {}
  incomeTax : Option IncomeTaxRules := none
  spainRegionTax : Option RegionIncomeTax := none
  socialContributions : Option SocialContributions := none
  otherTaxes : List (String × OtherTaxRule) := []
  calculationFlags : CalcFlags := {}
  childrenCount : ℚ := 0
  calcMode : Option CalcMode := none
deriving DecidableEq

/-! ## Engine context types -/

/-- Auxiliary context handed to formula implementations (`extraCtx`). -/
structure ExtraCtx where
  countryCode : String
  taxClass : Option String := none
  childrenCount : ℚ := 0
  yearRules : Option YearRules := none
  specialPay : Option Bool := none
deriving DecidableEq

/-- The `formulaCtx` object built by `computeTaxByRules` for a formula
implementation. -/
structure FormulaCtx where
  taxable : ℚ
  taxRules : IncomeTaxRules
  parameters : List (String × ℚ)
  currencyDecimals : Option ℤ
  roundingMode : String
  extra : Option ExtraCtx := none

/-- A registered formula implementation: it may throw (modelled as
`Except.error`), and otherwise returns a value whose `Number(...)`
conversion is the given `JSNumber`. -/
def FormulaImpl : Type := FormulaCtx → Except Unit JSNumber

/-- `window.SalaryFormulaRegistry`: a name-to-implementation lookup. -/
def FormulaRegistry : Type := String → Option FormulaImpl

/-- Result of one `computeTaxByRules` dispatch. The `details` payload of
the source is reduced to the `note` marker that distinguishes the
`formula_not_configured` soft path. -/
structure TaxResult where
  amount : ℚ
  type : String
  note : Option String := none
deriving DecidableEq

/-! ## salary-engine.js: free functions -/

/-- salary-engine.js `toAnnual(amount, period)` (lines 45-58). -/
def toAnnual (amount : JSNumber) (period : String) : Except CalcError ℚ :=
  match amount with
  | .fin v =>
    if v < 0 then .error ⟨"error.invalidSalary", none⟩
    else if period = "monthly" then .ok (v * 12)
    else if period = "yearly" then .ok v
    else .error ⟨"app.error.generic", some "invalid_period"⟩
  | _ => .error ⟨"error.invalidSalary", none⟩

/-- salary-engine.js `toMonthly(annual)` (lines 64-66). -/
def toMonthly (annual : ℚ) : ℚ := annual / 12

/-- The bracket loop of `computeBracketedContribution` (lines 280-299),
with `remaining` and `prevLimit` as explicit accumulators. A bracket with
`up_to = none` has infinite span and consumes all of `remaining`; every
later iteration then exits at the `remaining <= 0` break. -/
def computeBracketedLoop : List Bracket → ℚ → ℚ → ℚ
  | [], _, _ => 0
  | b :: bs, remaining, prevLimit =>
    if remaining ≤ 0 then 0
    else
      match b.up_to with
      | none => remaining * b.rate
      | some upTo =>
        let span := max 0 (upTo - prevLimit)
        let taxable := min remaining span
        taxable * b.rate + computeBracketedLoop bs (remaining - taxable) upTo

/-- salary-engine.js `computeBracketedContribution(baseAnnual, brackets)`. -/
def computeBracketedContribution (baseAnnual : ℚ) (brackets : List Bracket) : ℚ :=
  computeBracketedLoop brackets baseAnnual 0

/-- The progressive-bracket loop inside `computeTaxByRules`
(lines 316-342): per bracket, `span = max(0, upper - prevLimit)`,
`taxableInBracket = min(remaining, span)`, accumulate
`taxableInBracket * rate` and subtract from `remaining`; brackets with
non-positive span or exhausted remaining are skipped. A bracket with
`up_to = none` has infinite span, takes all of `remaining`, and every
later bracket contributes 0 (the loop breaks once remaining reaches 0). -/
def progressiveTaxLoop : List Bracket → ℚ → ℚ → ℚ
  | [], _, _ => 0
  | b :: bs, remaining, prevLimit =>
    match b.up_to with
    | none =>
      if remaining ≤ 0 then 0 else remaining * b.rate
    | some upTo =>
      let span := max 0 (upTo - prevLimit)
      if remaining ≤ 0 ∨ span ≤ 0 then
        progressiveTaxLoop bs remaining upTo
      else
        let t := min remaining span
        t * b.rate + progressiveTaxLoop bs (remaining - t) upTo

/-- salary-engine.js `computeTaxByRules(taxableAnnual, taxRules,
currencyDecimals, roundingMode, extraCtx)` (lines 301-464). Failures
(`throw new EngineError`) are `Except.error`; the global
`window.SalaryFormulaRegistry` is the explicit `registry` argument. -/
def computeTaxByRules (taxableAnnual : ℚ) (taxRules : Option IncomeTaxRules)
    (currencyDecimals : Option ℤ) (roundingMode : String)
    (extraCtx : Option ExtraCtx) (registry : Option FormulaRegistry) :
    Except CalcError TaxResult :=
  match taxRules with
  | none => .ok ⟨0, "none", none⟩
  | some rules =>
    let taxable := max 0 taxableAnnual
    let ty := strOr rules.type "progressive"
    if ty = "progressive" then
      let brackets := rules.brackets.getD []
      let tax := progressiveTaxLoop brackets taxable 0
      .ok ⟨roundCurrency tax currencyDecimals roundingMode, "progressive", none⟩
    else if ty = "flat" then
      let rate := qOr rules.flat_rate 0
      .ok ⟨roundCurrency (taxable * rate) currencyDecimals roundingMode, "flat", none⟩
    else if ty = "formula" then
      let f := rules.formula.getD {}
      match strOrNull f.method with
      | none =>
        -- source comment: no valid formula definition; treat as zero tax
        .ok ⟨0, "formula", some "formula_not_configured"⟩
      | some m =>
        if f.use_formula ≠ some true then
          .ok ⟨0, "formula", some "formula_not_configured"⟩
        else
          match registry with
          | none => .error ⟨"app.error.generic", some "formula_registry_missing"⟩
          | some reg =>
            match reg m with
            | none => .error ⟨"app.error.generic", some "formula_not_registered"⟩
            | some impl =>
              let formulaCtx : FormulaCtx :=
                ⟨taxable, rules, f.parameters.getD [], currencyDecimals, roundingMode, extraCtx⟩
              match impl formulaCtx with
              | .error _ => .error ⟨"app.error.generic", some "formula_execution_error"⟩
              | .ok n =>
                if n.isFiniteB = false ∨ n.ltZero then
                  .error ⟨"app.error.generic", some "formula_invalid_result"⟩
                else
                  .ok ⟨roundCurrency n.toQ currencyDecimals roundingMode, "formula", none⟩
    else
      .ok ⟨0, "unknown", none⟩

/-- Options record passed to `computeContributionsAnnual`. -/
structure ContribOpts where
  countryCode : String
  atPortion : Option String := none
deriving DecidableEq

/-- Result record of `computeContributionsAnnual`. -/
structure ContribResult where
  employeeById : List (String × ℚ) := []
  employerById : List (String × ℚ) := []
  labelsById : List (String × String) := []
  employeeTotal : ℚ := 0
  employerTotal : ℚ := 0
  deductibleEmployeeTotal : ℚ := 0
deriving DecidableEq

/-- Tier scan of the Austrian low-income employee-rate override
(lines 171-175): the first tier whose `up_to` (infinite when absent)
is at least `baseForTier` supplies the rate; a tier without an
`employee_rate` key falls back to the base rate. -/
def lowIncomeTierRate : List LowIncomeTier → ℚ → ℚ → ℚ
  | [], _, empRate => empRate
  | t :: ts, baseForTier, empRate =>
    match t.up_to with
    | none => t.employee_rate.getD empRate
    | some u =>
      if baseForTier ≤ u then t.employee_rate.getD empRate
      else lowIncomeTierRate ts baseForTier empRate

/-- The floor/ceiling/zero clamp applied to the contribution base inside
`processEntry` (lines 183-187): raise to `floor`, cap at `ceiling` when
one is configured, then zero out a negative result. -/
def effectiveContribBase (contribBase floorV : ℚ) (ceiling : Option ℚ) : ℚ :=
  let eb1 := if contribBase < floorV then floorV else contribBase
  let eb2 :=
    match ceiling with
    | some c => if eb1 > c then c else eb1
    | none => eb1
  if eb2 < 0 then 0 else eb2

/-- `processEntry(id, entry)` inside `computeContributionsAnnual`
(lines 141-238), with the accumulated result passed explicitly. A
non-applying entry records zero amounts but stays in the output. -/
def processEntry (base : ℚ) (opts : ContribOpts) (acc : ContribResult)
    (id : String) (entry : ContribEntry) : ContribResult :=
  let applies := entry.applies = some true
  let label := strOr entry.label id
  let acc := { acc with labelsById := upsert acc.labelsById id label }
  if applies = false then
    { acc with
      employeeById := upsert acc.employeeById id 0
      employerById := upsert acc.employerById id 0 }
  else
    let contribBase := base
    let empRate0 := qOr entry.employee_rate 0
    let tiers := entry.low_income_employee_rate_tiers.getD []
    let useTiers :=
      opts.countryCode = "AT" ∧ opts.atPortion ≠ some "special" ∧ tiers ≠ []
    let basis := strOr entry.low_income_employee_rate_basis "monthly"
    let baseForTier := if basis = "monthly" then contribBase / 12 else contribBase
    let empRate := if useTiers then lowIncomeTierRate tiers baseForTier empRate0 else empRate0
    let erRate := qOr entry.employer_rate 0
    let floorV := entry.floor.getD 0
    let effBase := effectiveContribBase contribBase floorV entry.ceiling
    let empAmount :=
      match entry.employee.bind EmployeeContribSpec.brackets with
      | some bs => computeBracketedContribution effBase bs
      | none => effBase * empRate
    let erAmount :=
      match entry.employer with
      | some espec =>
        match espec.threshold with
        | some thr => max 0 (effBase - thr) * qOr espec.rate 0
        | none => effBase * erRate
      | none => effBase * erRate
    { acc with
      employeeById := upsert acc.employeeById id empAmount
      employerById := upsert acc.employerById id erAmount
      employeeTotal := acc.employeeTotal + empAmount
      employerTotal := acc.employerTotal + erAmount
      deductibleEmployeeTotal := acc.deductibleEmployeeTotal +
        (if entry.deductible_for_tax = some true then empAmount else 0) }

/-- salary-engine.js `computeContributionsAnnual(grossAnnual,
socialContribRules, opts)` (lines 119-262): named schemes first (the
`other` key is skipped), then the `other` array under ids `other_i`. -/
def computeContributionsAnnual (grossAnnual : ℚ)
    (socialContribRules : Option SocialContributions) (opts : ContribOpts) :
    ContribResult :=
  match socialContribRules with
  | none => {}
  | some sc =>
    let acc1 := sc.named.foldl
      (fun acc kv => if kv.1 = "other" then acc else processEntry grossAnnual opts acc kv.1 kv.2)
      {}
    let otherList := sc.other.getD []
    (otherList.enum).foldl
      (fun acc p => processEntry grossAnnual opts acc ("other_" ++ toString p.1) p.2)
      acc1

/-- salary-engine.js `extractAnnualAllowances(taxContext)`
(lines 79-103): ES reads the top-level `yearRules.income_tax`, other
countries the context income tax; sums the three fixed allowance fields,
floored at zero. -/
def extractAnnualAllowances (taxContext : TaxContext) : ℚ :=
  let src : Option IncomeTaxRules :=
    if taxContext.countryCode = "ES" then taxContext.yearRules.income_tax
    else taxContext.incomeTax
  match src with
  | none => 0
  | some s =>
    match s.allowances with
    | none => 0
    | some a =>
      let basic := qOr a.basic_tax_free 0
      let employment := qOr a.employment_expense_flat 0
      let other := qOr a.other_fixed 0
      let total := basic + employment + other
      if total > 0 then total else 0

/-- Result of the Spain dual-schedule computation. -/
structure SpainTaxPair where
  total : ℚ
  national : TaxResult
  regional : TaxResult
deriving DecidableEq

/-- salary-engine.js `computeSpainIncomeTax` (lines 471-494): national and
regional schedules computed by the same dispatcher (no extra context) and
summed with a final rounding. -/
def computeSpainIncomeTax (taxableAnnual : ℚ) (taxContext : TaxContext)
    (currencyDecimals : Option ℤ) (roundingMode : String)
    (registry : Option FormulaRegistry) : Except CalcError SpainTaxPair :=
  match taxContext.spainRegionTax with
  | none => .error ⟨"app.error.generic", some "missing_spain_region_tax"⟩
  | some spainRegionTax => do
    let national ← computeTaxByRules taxableAnnual spainRegionTax.national
      currencyDecimals roundingMode none registry
    let regional ← computeTaxByRules taxableAnnual spainRegionTax.regional
      currencyDecimals roundingMode none registry
    let total := roundCurrency (national.amount + regional.amount) currencyDecimals roundingMode
    pure ⟨total, national, regional⟩

/-- The `segments` scan inside `computeTaxCreditsAnnual` (lines 550-567):
a segment containing the income breaks with the marginal formula; a
passed segment leaves its full value in `cur` (the last write wins when
no segment contains the income). -/
def creditSegmentsLoop : List CreditSegment → ℚ → ℚ → ℚ
  | [], _, cur => cur
  | seg :: rest, income, _cur =>
    let base := seg.base.getD 0
    let rate := seg.rate.getD 0
    let over := seg.over.getD 0
    match seg.up_to with
    | none => base + rate * max 0 (income - over)
    | some u =>
      if income ≤ u then base + rate * max 0 (income - over)
      else creditSegmentsLoop rest income (base + rate * max 0 (u - over))

/-- Value of one credit rule for a given annual income (lines 525-572):
phase-out model when `max` and `phaseout_start` are present, overridden
by the segments model when `segments` is an array; floored at zero. -/
def computeCreditRule (incomeAnnual : ℚ) (rule : CreditRule) : ℚ :=
  let v1 :=
    match rule.max, rule.phaseout_start with
    | some mx, some start =>
      let rate :=
        match rule.phaseout_rate_per_eur with
        | some r => r
        | none => rule.phaseout_rate.getD 0
      if incomeAnnual ≤ start then mx
      else
        match rule.phaseout_end with
        | some e =>
          if incomeAnnual ≥ e then 0
          else max 0 (mx - (incomeAnnual - start) * rate)
        | none => max 0 (mx - (incomeAnnual - start) * rate)
    | _, _ => 0
  let v2 :=
    match rule.segments with
    | some segs => creditSegmentsLoop segs incomeAnnual 0
    | none => v1
  max 0 v2

/-- Result of `computeTaxCreditsAnnual`. -/
structure CreditsResult where
  total : ℚ := 0
  byId : List (String × ℚ) := []
deriving DecidableEq

/-- salary-engine.js `computeTaxCreditsAnnual(incomeAnnual,
taxCreditsRules)` (lines 515-576). -/
def computeTaxCreditsAnnual (incomeAnnual : ℚ)
    (taxCreditsRules : List (String × CreditRule)) : CreditsResult :=
  taxCreditsRules.foldl
    (fun acc kv =>
      let v := computeCreditRule incomeAnnual kv.2
      ⟨acc.total + v, upsert acc.byId kv.1 v⟩)
    {}

/-- Result record of `computeOtherTaxesAnnual`. -/
structure OtherTaxesResult where
  total : ℚ := 0
  byId : List (String × ℚ) := []
  employeeTotal : ℚ := 0
  employerTotal : ℚ := 0
  employeeById : List (String × ℚ) := []
  employerById : List (String × ℚ) := []
deriving DecidableEq

/-- Body of the per-rule loop of `computeOtherTaxesAnnual`
(lines 604-676). A rule applies unless `applies === false`; basis
selects gross / taxable income / income tax (defaulting to gross);
an optional tapered model overrides the flat rate on the income-tax
basis; an optional cap (`cap` or `max`) truncates; the rounded amount
lands on the employee or employer side by `incidence`. -/
def processOtherTax (grossAnnual taxableAnnual incomeTaxTotalAnnual : ℚ)
    (currencyDecimals : Option ℤ) (roundingMode : String)
    (acc : OtherTaxesResult) (key : String) (rule : OtherTaxRule) :
    OtherTaxesResult :=
  let applies := rule.applies ≠ some false
  if applies = false then
    { acc with
      byId := upsert acc.byId key 0
      employeeById := upsert acc.employeeById key 0
      employerById := upsert acc.employerById key 0 }
  else
    let basis := strOr rule.basis "gross"
    let incidence := jsToLower (strOr rule.incidence "employee")
    let baseAmount :=
      if basis = "gross" then grossAnnual
      else if basis = "taxable_income" then taxableAnnual
      else if basis = "income_tax" then incomeTaxTotalAnnual
      else grossAnnual
    let amount0 :=
      match rule.rate with
      | some r => baseAmount * r
      | none => 0
    let amount1 :=
      match rule.free_threshold, rule.taper_rate, rule.standard_rate with
      | some freeThreshold, some taperRate, some standardRate =>
        if basis = "income_tax" then
          if baseAmount ≤ freeThreshold then 0
          else min ((baseAmount - freeThreshold) * taperRate) (baseAmount * standardRate)
        else amount0
      | _, _, _ => amount0
    let capV :=
      match rule.cap with
      | some c => some c
      | none => rule.max
    let amount2 :=
      match capV with
      | some c => if 0 ≤ c ∧ amount1 > c then c else amount1
      | none => amount1
    let rounded := roundCurrency amount2 currencyDecimals roundingMode
    let acc := { acc with byId := upsert acc.byId key rounded, total := acc.total + rounded }
    if incidence = "employer" then
      { acc with
        employerById := upsert acc.employerById key rounded
        employeeById := upsert acc.employeeById key 0
        employerTotal := acc.employerTotal + rounded }
    else
      { acc with
        employeeById := upsert acc.employeeById key rounded
        employerById := upsert acc.employerById key 0
        employeeTotal := acc.employeeTotal + rounded }

/-- salary-engine.js `computeOtherTaxesAnnual` (lines 578-690). The
guard returning all-zero for a missing rules object coincides with the
empty-map iteration, so the rules argument is the (possibly empty) list
of entries; the three totals receive a final rounding. -/
def computeOtherTaxesAnnual (grossAnnual taxableAnnual incomeTaxTotalAnnual : ℚ)
    (otherTaxRules : List (String × OtherTaxRule))
    (currencyDecimals : Option ℤ) (roundingMode : String) : OtherTaxesResult :=
  let r := otherTaxRules.foldl
    (fun acc kv => processOtherTax grossAnnual taxableAnnual incomeTaxTotalAnnual
      currencyDecimals roundingMode acc kv.1 kv.2)
    {}
  { r with
    total := roundCurrency r.total currencyDecimals roundingMode
    employeeTotal := roundCurrency r.employeeTotal currencyDecimals roundingMode
    employerTotal := roundCurrency r.employerTotal currencyDecimals roundingMode }

/-! ## salary-engine.js: computeSalary -/

/-- Input record of `computeSalary`. -/
structure SalaryOptions where
  taxContext : Option TaxContext := none
  salaryAmount : JSInput := .null
  salaryPeriod : String := ""
  benefitsAnnual : Option ℚ := none
  salaryMonths : Option JSNumber := none
deriving DecidableEq

/-- The Austrian regular/special annualization split (lines 892-921).
Returns the effective `(grossAnnual, grossMonthly)` pair together with
`some (regular, special)` when the split is engaged (requested months
exceed the regular months), else the unsplit values. -/
def atAnnualSplit (spc : SpecialPayments) (salaryAmount : JSInput)
    (salaryPeriod : String) (salaryMonths : Option JSNumber)
    (grossAnnual0 grossMonthly0 : ℚ) : ℚ × ℚ × Option (ℚ × ℚ) :=
  let regularMonths := qOr spc.regular_months 12
  let requestedMonths :=
    match salaryMonths with
    | some (.fin m) => m
    | _ => qOr spc.default_salary_months regularMonths
  let effectiveMonths := max regularMonths ((jsRound requestedMonths : ℤ) : ℚ)
  if effectiveMonths > regularMonths then
    if salaryPeriod = "monthly" then
      let monthly := salaryAmount.toNumber.toQ
      let reg := monthly * regularMonths
      let spec := monthly * (effectiveMonths - regularMonths)
      (reg + spec, monthly, some (reg, spec))
    else if salaryPeriod = "yearly" then
      let annual := grossAnnual0
      let monthlyBase := annual / effectiveMonths
      let reg := monthlyBase * regularMonths
      let spec := annual - reg
      (reg + spec, (reg + spec) / 12, some (reg, spec))
    else (grossAnnual0, grossMonthly0, none)
  else (grossAnnual0, grossMonthly0, none)

/-- `applyCap` inside `cloneSocialWithCeilingCap` (lines 936-945):
tighten (or introduce) an entry ceiling to the given annual cap. -/
def applyCeilingCap (capAnnual : Option ℚ) (entry : ContribEntry) : ContribEntry :=
  match capAnnual with
  | none => entry
  | some cap =>
    match entry.ceiling with
    | none => { entry with ceiling := some cap }
    | some c => { entry with ceiling := some (min c cap) }

/-- `cloneSocialWithCeilingCap(socialRules, capAnnual)` (lines 933-949):
apply the cap to the health/pension/unemployment schemes and to every
entry of the `other` array. -/
def cloneSocialWithCeilingCap (socialRules : Option SocialContributions)
    (capAnnual : Option ℚ) : Option SocialContributions :=
  match socialRules with
  | none => none
  | some sc =>
    some { named := sc.named.map (fun kv =>
             if kv.1 = "health" ∨ kv.1 = "pension" ∨ kv.1 = "unemployment"
             then (kv.1, applyCeilingCap capAnnual kv.2) else kv)
           other := sc.other.map (fun l => l.map (applyCeilingCap capAnnual)) }

/-- Contribution result plus the regular/special sub-results that the AT
path stores under `_atSplit`. -/
structure ContribWithSplit where
  main : ContribResult
  atSplit : Option (ContribResult × ContribResult) := none
deriving DecidableEq

/-- Merge of the regular and special contribution results (lines 954-975):
per-id sums, label union, summed totals. -/
def mergeSplitContrib (contribRegular contribSpecial : ContribResult) :
    ContribWithSplit :=
  let employeeById := contribSpecial.employeeById.foldl (fun m kv => upsertAdd m kv.1 kv.2)
    (contribRegular.employeeById.foldl (fun m kv => upsertAdd m kv.1 kv.2) [])
  let employerById := contribSpecial.employerById.foldl (fun m kv => upsertAdd m kv.1 kv.2)
    (contribRegular.employerById.foldl (fun m kv => upsertAdd m kv.1 kv.2) [])
  let labelsById := contribSpecial.labelsById.foldl (fun m kv => upsert m kv.1 kv.2)
    (contribRegular.labelsById.foldl (fun m kv => upsert m kv.1 kv.2) [])
  ⟨⟨employeeById, employerById, labelsById,
    contribRegular.employeeTotal + contribSpecial.employeeTotal,
    contribRegular.employerTotal + contribSpecial.employerTotal,
    contribRegular.deductibleEmployeeTotal + contribSpecial.deductibleEmployeeTotal⟩,
   some (contribRegular, contribSpecial)⟩

/-- Detail block stored under `incomeTax.special` in the AT path. -/
structure SpecialTaxDetail where
  amount : ℚ
  taxablePreferential : ℚ
  taxableBase : ℚ
  capBase : ℚ
  sixth : ℚ
  allowance : ℚ
  overflowToRegular : ℚ
deriving DecidableEq

/-- The `incomeTax` block of a result: total plus the shape-dependent
sub-results (generic `main`, AT `special`, ES `national`/`regional`,
credit bookkeeping). -/
structure IncomeTaxBlock where
  total : ℚ
  main : Option TaxResult := none
  special : Option SpecialTaxDetail := none
  national : Option TaxResult := none
  regional : Option TaxResult := none
  creditsTotal : Option ℚ := none
  creditsById : Option (List (String × ℚ)) := none
deriving DecidableEq

/-- The Austrian preferential (13th/14th salary) income-tax branch of
`computeSalary` (lines 1021-1092): regular and special taxable bases,
the one-sixth cap on the preferential base, overflow added back to the
regular base, and the two schedule dispatches. -/
def computeATSpecialIncomeTax (spc : SpecialPayments) (taxContext : TaxContext)
    (yearRules : YearRules)
    (atRegularGrossAnnual atSpecialGrossAnnual allowancesAnnual : ℚ)
    (contribRegular contribSpecial : ContribResult)
    (currencyDecimals : Option ℤ) (roundingMode : String)
    (registry : Option FormulaRegistry) : Except CalcError IncomeTaxBlock := do
  let deductibleRegular := contribRegular.deductibleEmployeeTotal
  let deductibleSpecial := contribSpecial.deductibleEmployeeTotal
  let regularTaxableBase := max 0 (atRegularGrossAnnual - deductibleRegular - allowancesAnnual)
  let specialTaxableBase := max 0 (atSpecialGrossAnnual - deductibleSpecial)
  let sixth := max 0 (atRegularGrossAnnual / 6)
  let preferentialCapBase := min specialTaxableBase sixth
  let overflowToRegular := max 0 (specialTaxableBase - preferentialCapBase)
  let specialAllowance := qOr spc.allowance_annual 0
  let preferentialTaxable := max 0 (preferentialCapBase - specialAllowance)
  match taxContext.incomeTax with
  | none => throw ⟨"app.error.generic", some "missing_income_tax_rules"⟩
  | some mainRules => do
    let regularTax ← computeTaxByRules (max 0 (regularTaxableBase + overflowToRegular))
      (some mainRules) currencyDecimals roundingMode
      (some ⟨taxContext.countryCode, taxContext.taxClass, taxContext.childrenCount,
             some yearRules, none⟩) registry
    let specialTax ← computeTaxByRules preferentialTaxable spc.income_tax
      currencyDecimals roundingMode
      (some ⟨taxContext.countryCode, taxContext.taxClass, taxContext.childrenCount,
             some yearRules, some true⟩) registry
    pure { total := regularTax.amount + specialTax.amount
           main := some regularTax
           special := some ⟨specialTax.amount, preferentialTaxable, specialTaxableBase,
                            preferentialCapBase, sixth, specialAllowance, overflowToRegular⟩ }

/-- Annual breakdown of a result (lines 1172-1190). -/
structure AnnualBreakdown where
  gross : ℚ
  benefits : ℚ
  employeeContribById : List (String × ℚ)
  employerContribById : List (String × ℚ)
  employeeContribTotal : ℚ
  employerContribTotal : ℚ
  allowances : ℚ
  taxableIncome : ℚ
  incomeTaxTotal : ℚ
  otherTaxesTotal : ℚ
  employeeOtherTaxesTotal : ℚ
  employerOtherTaxesTotal : ℚ
  employeeOtherTaxesById : List (String × ℚ)
  employerOtherTaxesById : List (String × ℚ)
  taxesTotal : ℚ
  net : ℚ
  tco : ℚ
deriving DecidableEq

/-- Monthly breakdown of a result (lines 1192-1206). -/
structure MonthlyBreakdown where
  gross : ℚ
  benefits : ℚ
  employeeContribById : List (String × ℚ)
  employerContribById : List (String × ℚ)
  employeeContribTotal : ℚ
  employerContribTotal : ℚ
  allowances : ℚ
  taxableIncome : ℚ
  incomeTaxTotal : ℚ
  otherTaxesTotal : ℚ
  taxesTotal : ℚ
  net : ℚ
  tco : ℚ
deriving DecidableEq

/-- Meta block of a result. -/
structure ResultMeta where
  countryCode : String
  countryName : Option String
  year : String
  currency : Option String
  inputPeriod : String
  roundingMode : String
  currencyDecimals : ℤ
deriving DecidableEq

/-- A computation result. The `tables` block of the source is a pure
restructuring of these same numbers for rendering and is omitted. -/
structure SalaryResult where
  meta : ResultMeta
  taxContext : TaxContext
  annual : AnnualBreakdown
  monthly : MonthlyBreakdown
  incomeTax : IncomeTaxBlock
  otherTaxes : OtherTaxesResult
  contributionLabels : List (String × String)
deriving DecidableEq

/-- Steps 7-11 of `computeSalary` (lines 1140-1246): net and TCO
synthesis and assembly of the rounded annual and monthly breakdowns. -/
def assembleSalaryResult (taxContextEff : TaxContext) (inputPeriod roundingMode : String)
    (currencyDecimals : ℤ)
    (grossAnnual grossMonthly allowancesAnnual taxableAnnual benefitsAnnualRaw : ℚ)
    (contribMain : ContribResult) (incomeTaxBlk : IncomeTaxBlock)
    (otherTaxes : OtherTaxesResult) : SalaryResult :=
  let incomeTaxTotalAnnual := incomeTaxBlk.total
  let employeeContribTotalAnnual := contribMain.employeeTotal
  let employerContribTotalAnnual := contribMain.employerTotal
  let taxesTotalAnnual := incomeTaxTotalAnnual + otherTaxes.employeeTotal
  let netAnnual := grossAnnual - employeeContribTotalAnnual - taxesTotalAnnual
  let tcoAnnual := grossAnnual + employerContribTotalAnnual + otherTaxes.employerTotal
  let benefitsAnnualFinal := if benefitsAnnualRaw > 0 then benefitsAnnualRaw else 0
  let rc := fun v => roundCurrency v (some currencyDecimals) roundingMode
  let annual : AnnualBreakdown := {
    gross := rc grossAnnual
    benefits := rc benefitsAnnualFinal
    employeeContribById := contribMain.employeeById.map (fun kv => (kv.1, rc kv.2))
    employerContribById := contribMain.employerById.map (fun kv => (kv.1, rc kv.2))
    employeeContribTotal := rc employeeContribTotalAnnual
    employerContribTotal := rc employerContribTotalAnnual
    allowances := rc allowancesAnnual
    taxableIncome := rc taxableAnnual
    incomeTaxTotal := rc incomeTaxTotalAnnual
    otherTaxesTotal := rc otherTaxes.total
    employeeOtherTaxesTotal := rc otherTaxes.employeeTotal
    employerOtherTaxesTotal := rc otherTaxes.employerTotal
    employeeOtherTaxesById := otherTaxes.employeeById
    employerOtherTaxesById := otherTaxes.employerById
    taxesTotal := rc taxesTotalAnnual
    net := rc netAnnual
    tco := rc tcoAnnual }
  let monthly : MonthlyBreakdown := {
    gross := rc grossMonthly
    benefits := rc (toMonthly benefitsAnnualFinal)
    employeeContribById := contribMain.employeeById.map (fun kv => (kv.1, rc (toMonthly kv.2)))
    employerContribById := contribMain.employerById.map (fun kv => (kv.1, rc (toMonthly kv.2)))
    employeeContribTotal := rc (toMonthly employeeContribTotalAnnual)
    employerContribTotal := rc (toMonthly employerContribTotalAnnual)
    allowances := rc (toMonthly allowancesAnnual)
    taxableIncome := rc (toMonthly taxableAnnual)
    incomeTaxTotal := rc (toMonthly incomeTaxTotalAnnual)
    otherTaxesTotal := rc (toMonthly otherTaxes.total)
    taxesTotal := rc (toMonthly taxesTotalAnnual)
    net := rc (toMonthly netAnnual)
    tco := rc (toMonthly tcoAnnual) }
  { meta := ⟨taxContextEff.countryCode, taxContextEff.countryName, taxContextEff.year,
             taxContextEff.currency, inputPeriod, roundingMode, currencyDecimals⟩
    taxContext := taxContextEff
    annual := annual
    monthly := monthly
    incomeTax := incomeTaxBlk
    otherTaxes := otherTaxes
    contributionLabels := contribMain.labelsById }

set_option maxHeartbeats 2000000 in
/-- salary-engine.js `computeSalary(options)` (lines 817-1246), with the
formula registry as an explicit argument. Every `throw new EngineError`
is an `Except.error`; the in-place fallback assignment of
`taxContext.socialContributions` (lines 979-981) is modelled by the
updated context `taxContextEff` echoed in the result. -/
def computeSalary (options : SalaryOptions) (registry : Option FormulaRegistry) :
    Except CalcError SalaryResult := do
  match options.taxContext with
  | none => throw ⟨"app.error.generic", some "missing_tax_context"⟩
  | some taxContext => do
    if taxContext.countryCode = "DE" ∧ taxContext.yearRules.tax_classes.isSome ∧
        taxContext.taxClass.getD "" = "" then
      throw ⟨"error.invalidTaxClass", some "missing_tax_class_required"⟩
    match taxContext.calcMode with
    | none => throw ⟨"app.error.generic", some "missing_calc_mode"⟩
    | some calcMode => do
      if calcMode.countryCode ≠ taxContext.countryCode ∨
          calcMode.year ≠ taxContext.year ∨
          calcMode.taxClass.getD "" ≠ taxContext.taxClass.getD "" then
        throw ⟨"app.error.generic", some "calc_mode_mismatch"⟩
      let flags := taxContext.calculationFlags
      let roundingMode := strOr flags.rounding_mode "nearest_cent"
      let currencyDecimals : ℤ := flags.currency_decimals.getD 2
      if options.salaryAmount = .null ∨ options.salaryAmount = .emptyStr then
        throw ⟨"error.noSalary", none⟩
      let yearRules := taxContext.yearRules
      let sp : Option SpecialPayments :=
        if taxContext.countryCode = "AT" then
          match yearRules.special_payments with
          | some spc => if spc.enabled = some true then some spc else none
          | none => none
        else none
      let grossAnnual0 ← toAnnual options.salaryAmount.toNumber options.salaryPeriod
      let grossMonthly0 :=
        if options.salaryPeriod = "monthly" then options.salaryAmount.toNumber.toQ
        else toMonthly grossAnnual0
      let gm :=
        match sp with
        | some spc => atAnnualSplit spc options.salaryAmount options.salaryPeriod
            options.salaryMonths grossAnnual0 grossMonthly0
        | none => (grossAnnual0, grossMonthly0, none)
      let grossAnnual := gm.1
      let grossMonthly := gm.2.1
      let atSplitGross := gm.2.2
      let contribPair : ContribWithSplit × TaxContext :=
        match sp, atSplitGross with
        | some spc, some rs =>
          let scCfg := spc.social_contributions.getD {}
          let contribRegular := computeContributionsAnnual rs.1
            (cloneSocialWithCeilingCap taxContext.socialContributions scCfg.regular_ceiling_annual)
            ⟨"AT", some "regular"⟩
          let contribSpecial := computeContributionsAnnual rs.2
            (cloneSocialWithCeilingCap taxContext.socialContributions scCfg.special_ceiling_annual)
            ⟨"AT", some "special"⟩
          (mergeSplitContrib contribRegular contribSpecial, taxContext)
        | _, _ =>
          let scEff : Option SocialContributions :=
            match taxContext.socialContributions with
            | some sc =>
              if sc.named = [] ∧ sc.other = none then
                match yearRules.social_contributions with
                | some y => some y
                | none => some sc
              else some sc
            | none =>
              match yearRules.social_contributions with
              | some y => some y
              | none => some {}
          (⟨computeContributionsAnnual grossAnnual scEff ⟨taxContext.countryCode, none⟩, none⟩,
           { taxContext with socialContributions := scEff })
      let contrib := contribPair.1
      let taxContextEff := contribPair.2
      let allowancesAnnual := extractAnnualAllowances taxContextEff
      let taxablePreClamp := grossAnnual - contrib.main.deductibleEmployeeTotal - allowancesAnnual
      let taxableGeneric := if taxablePreClamp > 0 then taxablePreClamp else 0
      let taxableAnnual :=
        if taxContext.countryCode = "FR" then
          let netBeforeTaxAnnual := max 0 (grossAnnual - contrib.main.employeeTotal)
          let frDed :=
            match yearRules.income_tax with
            | some it => it.professional_deduction
            | none => none
          match frDed with
          | some d =>
            if d.enabled ≠ some false then
              let rate := d.rate.getD (1 / 10)
              let minV := d.min.getD 0
              let raw := netBeforeTaxAnnual * rate
              let clamped := max minV raw
              let proDed :=
                match d.max with
                | some m => min m clamped
                | none => clamped
              max 0 (netBeforeTaxAnnual - proDed)
            else netBeforeTaxAnnual
          | none => netBeforeTaxAnnual
        else taxableGeneric
      let incomeTax0 ←
        match sp, atSplitGross with
        | some spc, some rs =>
          match contrib.atSplit with
          | none => throw ⟨"app.error.generic", some "missing_at_split_contrib"⟩
          | some cs =>
            computeATSpecialIncomeTax spc taxContext yearRules rs.1 rs.2 allowancesAnnual
              cs.1 cs.2 (some currencyDecimals) roundingMode registry
        | _, _ =>
          if taxContext.countryCode = "ES" then do
            let s ← computeSpainIncomeTax taxableAnnual taxContext (some currencyDecimals)
              roundingMode registry
            pure { total := s.total, national := some s.national, regional := some s.regional }
          else
            match taxContext.incomeTax with
            | none => throw ⟨"app.error.generic", some "missing_income_tax_rules"⟩
            | some mainRules => do
              let main ← computeTaxByRules taxableAnnual (some mainRules) (some currencyDecimals)
                roundingMode
                (some ⟨taxContext.countryCode, taxContext.taxClass, taxContext.childrenCount,
                       some taxContext.yearRules, none⟩) registry
              pure { total := main.amount, main := some main }
      let creditsOpt :=
        match yearRules.income_tax with
        | some it => it.tax_credits
        | none => none
      let incomeTax1 :=
        match creditsOpt with
        | some tcr =>
          let credits := computeTaxCreditsAnnual grossAnnual tcr
          { incomeTax0 with
            total := max 0 (incomeTax0.total - credits.total)
            main := incomeTax0.main.map
              (fun m => { m with amount := max 0 (m.amount - credits.total) })
            creditsTotal := some credits.total
            creditsById := some credits.byId }
        | none => incomeTax0
      pure (assembleSalaryResult taxContextEff options.salaryPeriod roundingMode
        currencyDecimals grossAnnual grossMonthly allowancesAnnual taxableAnnual
        (qOr options.benefitsAnnual 0) contrib.main incomeTax1
        (computeOtherTaxesAnnual grossAnnual taxableAnnual incomeTax1.total
          taxContext.otherTaxes (some currencyDecimals) roundingMode))

/-! ## rules-loader.js: context resolution

The tax-class override machinery calls the untyped `deepMerge` on the
JSON fragments. On the typed data model this denotes field-wise merging:
a key present in the override replaces the base value, except that
sub-objects present on both sides merge recursively; arrays replace.
The functions below spell this out per structure. (The untyped
`deepMerge` itself is modelled separately for its own claim.) -/

/-- Recursive merge of two optional sub-objects: both present merge
recursively, otherwise whichever is present wins. -/
def mergeOptObj {α : Type} (f : α → α → α) : Option α → Option α → Option α
  | some b, some o => some (f b o)
  | none, some o => some o
  | b, none => b

/-- Merge of two JS object maps: override keys are folded in, merging
recursively when the key exists on both sides. -/
def mergeAssocWith {α : Type} (f : α → α → α)
    (base override : List (String × α)) : List (String × α) :=
  override.foldl
    (fun acc kv =>
      match lookupA acc kv.1 with
      | some bv => upsert acc kv.1 (f bv kv.2)
      | none => upsert acc kv.1 kv.2)
    base

/-- deepMerge on flat numeric parameter dictionaries. -/
def mergeParams (base override : List (String × ℚ)) : List (String × ℚ) :=
  override.foldl (fun acc kv => upsert acc kv.1 kv.2) base

/-- deepMerge on `formula` blocks. -/
def mergeFormulaDef (b o : FormulaDef) : FormulaDef :=
  { use_formula := o.use_formula <|> b.use_formula
    method := o.method <|> b.method
    parameters :=
      match b.parameters, o.parameters with
      | some bp, some op => some (mergeParams bp op)
      | none, some op => some op
      | bp, none => bp }

/-- deepMerge on `allowances` blocks. -/
def mergeAllowances (b o : Allowances) : Allowances :=
  { basic_tax_free := o.basic_tax_free <|> b.basic_tax_free
    employment_expense_flat := o.employment_expense_flat <|> b.employment_expense_flat
    other_fixed := o.other_fixed <|> b.other_fixed }

/-- deepMerge on `professional_deduction` blocks. -/
def mergeProfessionalDeduction (b o : ProfessionalDeduction) : ProfessionalDeduction :=
  { enabled := o.enabled <|> b.enabled
    rate := o.rate <|> b.rate
    min := o.min <|> b.min
    max := o.max <|> b.max }

/-- deepMerge on one tax-credit rule (the segments array replaces). -/
def mergeCreditRule (b o : CreditRule) : CreditRule :=
  { max := o.max <|> b.max
    phaseout_start := o.phaseout_start <|> b.phaseout_start
    phaseout_end := o.phaseout_end <|> b.phaseout_end
    phaseout_rate_per_eur := o.phaseout_rate_per_eur <|> b.phaseout_rate_per_eur
    phaseout_rate := o.phaseout_rate <|> b.phaseout_rate
    segments := o.segments <|> b.segments }

/-- deepMerge on `income_tax` blocks (bracket arrays replace). -/
def mergeIncomeTax (b o : IncomeTaxRules) : IncomeTaxRules :=
  { type := o.type <|> b.type
    brackets := o.brackets <|> b.brackets
    flat_rate := o.flat_rate <|> b.flat_rate
    formula := mergeOptObj mergeFormulaDef b.formula o.formula
    allowances := mergeOptObj mergeAllowances b.allowances o.allowances
    professional_deduction :=
      mergeOptObj mergeProfessionalDeduction b.professional_deduction o.professional_deduction
    tax_credits := mergeOptObj (mergeAssocWith mergeCreditRule) b.tax_credits o.tax_credits }

/-- deepMerge on one contribution entry (tier and bracket arrays replace,
the employee/employer sub-objects merge recursively). -/
def mergeContribEntry (b o : ContribEntry) : ContribEntry :=
  { applies := o.applies <|> b.applies
    label := o.label <|> b.label
    employee_rate := o.employee_rate <|> b.employee_rate
    employer_rate := o.employer_rate <|> b.employer_rate
    floor := o.floor <|> b.floor
    ceiling := o.ceiling <|> b.ceiling
    deductible_for_tax := o.deductible_for_tax <|> b.deductible_for_tax
    employee := mergeOptObj (fun bb oo => EmployeeContribSpec.mk (oo.brackets <|> bb.brackets))
      b.employee o.employee
    employer := mergeOptObj
      (fun bb oo => EmployerContribSpec.mk (oo.threshold <|> bb.threshold) (oo.rate <|> bb.rate))
      b.employer o.employer
    low_income_employee_rate_tiers :=
      o.low_income_employee_rate_tiers <|> b.low_income_employee_rate_tiers
    low_income_employee_rate_basis :=
      o.low_income_employee_rate_basis <|> b.low_income_employee_rate_basis }

/-- deepMerge on `social_contributions` blocks (the `other` array
replaces wholesale). -/
def mergeSocialContributions (b o : SocialContributions) : SocialContributions :=
  { named := mergeAssocWith mergeContribEntry b.named o.named
    other := o.other <|> b.other }

/-- deepMerge on one `other_taxes` rule. -/
def mergeOtherTaxRule (b o : OtherTaxRule) : OtherTaxRule :=
  { applies := o.applies <|> b.applies
    rate := o.rate <|> b.rate
    basis := o.basis <|> b.basis
    incidence := o.incidence <|> b.incidence
    free_threshold := o.free_threshold <|> b.free_threshold
    taper_rate := o.taper_rate <|> b.taper_rate
    standard_rate := o.standard_rate <|> b.standard_rate
    cap := o.cap <|> b.cap
    max := o.max <|> b.max }

/-- rules-loader.js `resolveYearRules(countryRules, year)` (lines 129-142). -/
def resolveYearRules (countryRules : CountryRules) (year : String) :
    Except CalcError YearRules :=
  match lookupA countryRules.years year with
  | some yearRules => .ok yearRules
  | none => .error ⟨"error.noYearRules", none⟩

/-- The Germany-only tax-class override step of `buildTaxContext`
(lines 252-347): mandatory class when the year defines `tax_classes`,
rejection of unknown classes, deep merge of the three fragments, the
formula-parameters backfill, and injection of the class-level taxable
income adjustment. The no-effect diagnostic (lines 328-343) only logs a
console warning unless the developer flag `window.DEBUG_STRICT` is set;
it is modelled with that flag unset, hence as a no-op. -/
def applyDETaxClass (countryCode : String) (taxClass : Option String)
    (yearRules : YearRules) (incomeTaxTopLevel : Option IncomeTaxRules)
    (socialTop : SocialContributions)
    (otherTop : List (String × OtherTaxRule)) :
    Except CalcError
      (Option IncomeTaxRules × SocialContributions × List (String × OtherTaxRule)) :=
  if countryCode = "DE" then
    let rawClass :=
      match taxClass with
      | some t => (jsToUpper t).trim
      | none => ""
    let taxClasses := yearRules.tax_classes
    if taxClasses.isSome ∧ rawClass = "" then
      .error ⟨"error.invalidTaxClass", some "missing_tax_class_required"⟩
    else if rawClass ≠ "" then
      match taxClasses.bind (fun l => lookupA l rawClass) with
      | none => .error ⟨"error.invalidTaxClass", none⟩
      | some classOverrides =>
        let ite0 := mergeIncomeTax (incomeTaxTopLevel.getD {})
          (classOverrides.income_tax.getD {})
        let ite1 :=
          if ite0.type = some "formula" ∧ ite0.formula.isSome ∧
              (ite0.formula.bind FormulaDef.parameters) = none then
            { ite0 with formula := ite0.formula.map (fun f => { f with parameters := some [] }) }
          else ite0
        let ite2 :=
          match classOverrides.taxable_income_adjustment with
          | some adj =>
            if ite1.formula.isSome ∧ (ite1.formula.bind FormulaDef.parameters).isSome then
              { ite1 with formula := ite1.formula.map (fun f =>
                  { f with parameters := f.parameters.map (fun p =>
                      mergeParams p [("taxable_income_adjustment", adj)]) }) }
            else ite1
          | none => ite1
        let socialEff := mergeSocialContributions socialTop
          (classOverrides.social_contributions.getD {})
        let otherEff := mergeAssocWith mergeOtherTaxRule otherTop
          (classOverrides.other_taxes.getD [])
        .ok (some ite2, socialEff, otherEff)
    else
      .ok (incomeTaxTopLevel, socialTop, otherTop)
  else
    .ok (incomeTaxTopLevel, socialTop, otherTop)

/-- rules-loader.js `resolveSpainRegionIncomeTax(yearRules, region)`
(lines 190-211). -/
def resolveSpainRegionIncomeTax (yearRules : YearRules) (region : Option String) :
    Except CalcError RegionIncomeTax :=
  let regions := yearRules.regions.getD []
  let regionKey := (strOrNull region) <|> strOrNull yearRules.default_region
  match regionKey with
  | none => .error ⟨"error.noRegionSelected", none⟩
  | some rk =>
    match lookupA regions rk with
    | none => .error ⟨"error.noRegionSelected", none⟩
    | some regionEntry =>
      let incomeTax := regionEntry.income_tax.getD {}
      .ok ⟨incomeTax.national, incomeTax.regional⟩

/-- The Spain step of `buildTaxContext` (lines 349-365): the effective
income tax is nulled and the dual national+regional pair attached. -/
def resolveCountryIncomeTax (countryCode : String) (yearRules : YearRules)
    (region : Option String) (incomeTaxEffective : Option IncomeTaxRules) :
    Except CalcError (Option IncomeTaxRules × Option RegionIncomeTax) :=
  if countryCode = "ES" then do
    let pair ← resolveSpainRegionIncomeTax yearRules region
    pure (none, some pair)
  else
    pure (incomeTaxEffective, none)

/-- The CalcMode `method` fingerprint (lines 398-404). -/
def calcModeMethod (countryCode : String) (incomeTax : Option IncomeTaxRules) : String :=
  match incomeTax with
  | some it =>
    if it.type = some "formula" ∧ it.formula.isSome ∧
        (strOrNull (it.formula.bind FormulaDef.method)).isSome then
      (it.formula.bind FormulaDef.method).getD ""
    else strOr it.type "unknown"
  | none => if countryCode = "ES" then "es_dual_irpf" else "none"

/-- Input record of `buildTaxContext`. The `year` is its string
coercion `String(year)`. -/
structure ContextOptions where
  countryCode : String := ""
  year : String := ""
  region : Option String := none
  taxClass : Option String := none
  childrenCount : Option ℚ := none
deriving DecidableEq

/-- rules-loader.js `buildTaxContext(options)` (lines 227-411), for an
already loaded country rule document (the network fetch and per-country
cache of `loadCountryRules` sit outside the numeric engine; the loaded
document is the explicit first argument). -/
def buildTaxContext (countryRules : CountryRules) (options : ContextOptions) :
    Except CalcError TaxContext := do
  let countryCode := jsToUpper options.countryCode
  let region := strOrNull options.region
  let taxClass := strOrNull options.taxClass
  let childrenCount := qOr options.childrenCount 0
  let yearRules ← resolveYearRules countryRules options.year
  let incomeTaxTopLevel := yearRules.income_tax
  let socialTop := yearRules.social_contributions.getD {}
  let otherTop := yearRules.other_taxes.getD []
  let flags := yearRules.calculation_flags.getD {}
  let eff ← applyDETaxClass countryCode taxClass yearRules incomeTaxTopLevel socialTop otherTop
  let resolved ← resolveCountryIncomeTax countryCode yearRules region eff.1
  let taxClassCtx := taxClass.map jsToUpper
  pure {
    countryCode := countryCode
    countryName := strOrNull countryRules.name
    currency := strOrNull countryRules.currency
    year := options.year
    region := if countryCode = "ES" then region else none
    taxClass := taxClassCtx
    yearRules := yearRules
    incomeTax := resolved.1
    spainRegionTax := resolved.2
    socialContributions := some eff.2.1
    otherTaxes := eff.2.2
    calculationFlags := flags
    childrenCount := childrenCount
    calcMode := some ⟨countryCode, options.year, taxClassCtx,
      calcModeMethod countryCode resolved.1⟩ }

/-- Input record of `computeSalaryWithContext`. -/
structure CombinedOptions where
  countryCode : String := ""
  year : String := ""
  region : Option String := none
  taxClass : Option String := none
  childrenCount : Option ℚ := none
  salaryAmount : JSInput := .null
  salaryPeriod : String := ""
  salaryMonths : Option JSNumber := none
  benefitsAnnual : Option ℚ := none
deriving DecidableEq

/-- salary-engine.js `computeSalaryWithContext(options)` (lines 1261-1285):
build the context (without forwarding `childrenCount`), then set
`childrenCount` on the context, then compute. -/
def computeSalaryWithContext (countryRules : CountryRules)
    (options : CombinedOptions) (registry : Option FormulaRegistry) :
    Except CalcError SalaryResult := do
  let taxContext0 ← buildTaxContext countryRules
    ⟨options.countryCode, options.year, options.region, options.taxClass, none⟩
  let taxContext := { taxContext0 with childrenCount := options.childrenCount.getD 0 }
  computeSalary
    ⟨some taxContext, options.salaryAmount, options.salaryPeriod,
     options.benefitsAnnual, options.salaryMonths⟩ registry

/-! ## rules-loader.js: the untyped deepMerge (lines 150-175)

`deepMerge` manipulates arbitrary JS values, and the claim about it is a
frame property (the base argument is never mutated), so it is modelled
twice, both times directly from the source:

* a store-passing version (`deepMergeGo`) over an explicit heap of
  object/array nodes, where `result = base.slice()` / `{...base}`
  allocates a fresh node and `result[key] = v` writes to it — this makes
  mutation (or its absence) observable;
* a value-level version (`mergeJS`) over pure trees, giving the
  functional behaviour.

JS objects and arrays are modelled uniformly as nodes carrying an
`isArray` flag and an ordered field list (arrays use their index strings
as keys, exactly the keys `Object.keys` reports for them). JS object
keys are unique, so field lists of nodes representing real JS values
have no duplicate keys. -/

/-- A primitive JS value. -/
inductive JSPrim where
  | null
  | undef
  | boolean (b : Bool)
  | number (q : ℚ)
  | str (s : String)
deriving DecidableEq

/-- JS truthiness of a primitive. -/
def truthyPrim : JSPrim → Bool
  | .null => false
  | .undef => false
  | .boolean b => b
  | .number q => decide (q ≠ 0)
  | .str s => decide (s ≠ "")

/-- A JS value: a primitive or a reference into the heap. -/
inductive JSVal where
  | prim (p : JSPrim)
  | ref (a : ℕ)
deriving DecidableEq

/-- A heap node: a JS object (or array, by flag) with ordered fields. -/
structure JSNode where
  isArray : Bool
  fields : List (String × JSVal)
deriving DecidableEq

/-- A heap: allocation counter plus the node store. -/
structure Heap where
  next : ℕ
  mem : ℕ → Option JSNode

/-- A heap is well formed when only addresses below `next` are populated. -/
def Heap.wf (h : Heap) : Prop := ∀ x, h.next ≤ x → h.mem x = none

/-- Property write `node_a[k] = v` (no-op on a missing node). -/
def Heap.setKey (h : Heap) (a : ℕ) (k : String) (v : JSVal) : Heap :=
  ⟨h.next, fun x => if x = a then (h.mem a).map (fun n => ⟨n.isArray, upsert n.fields k v⟩)
                    else h.mem x⟩

/-- JS truthiness of a value (references are always truthy). -/
def truthyVal : JSVal → Bool
  | .prim p => truthyPrim p
  | .ref _ => true

/-- Index-keyed entries of a string, as `Object.keys`/spread see them. -/
def strEntries (s : String) : List (String × JSVal) :=
  s.toList.enum.map (fun p => (toString p.1, JSVal.prim (JSPrim.str (toString p.2))))

/-- The fields the copy `Array.isArray(base) ? base.slice() : {...base}`
starts from: node fields for a reference, indexed characters for a
string, nothing for other primitives. -/
def spreadFields (h : Heap) : JSVal → List (String × JSVal)
  | .prim (.str s) => strEntries s
  | .prim _ => []
  | .ref a =>
    match h.mem a with
    | some n => n.fields
    | none => []

/-- `Array.isArray` on a value. -/
def isArrayVal (h : Heap) : JSVal → Bool
  | .ref a =>
    match h.mem a with
    | some n => n.isArray
    | none => false
  | _ => false

/-- `Object.keys` of a value. -/
def keysOfVal (h : Heap) : JSVal → List String
  | .prim (.str s) => (strEntries s).map Prod.fst
  | .prim _ => []
  | .ref a =>
    match h.mem a with
    | some n => n.fields.map Prod.fst
    | none => []

/-- Property read `v[k]` (undefined when absent). -/
def getKey (h : Heap) (v : JSVal) (k : String) : JSVal :=
  (lookupA (spreadFields h v) k).getD (.prim .undef)

/-- `typeof v === 'object' && !Array.isArray(v)` for a truthy value:
a reference to a non-array node. -/
def isPlainObjVal (h : Heap) : JSVal → Bool
  | .ref a =>
    match h.mem a with
    | some n => !n.isArray
    | none => false
  | _ => false

mutual
/-- Store-passing model of `deepMerge(base, override)` (lines 150-175).
Fuel bounds the recursion depth (JS overflows the stack on cyclic
inputs); `none` is depth exhaustion. A fresh node is allocated for
`result` and all writes of the key loop target it. -/
def deepMergeGo (fuel : ℕ) (h : Heap) (base override : JSVal) :
    Option (Heap × JSVal) :=
  match fuel with
  | 0 => none
  | fuel + 1 =>
    if truthyVal override = false then some (h, base)
    else if truthyVal base = false then some (h, override)
    else
      let node : JSNode := ⟨isArrayVal h base, spreadFields h base⟩
      let a := h.next
      let h0 : Heap := ⟨a + 1, fun x => if x = a then some node else h.mem x⟩
      match mergeKeys fuel h0 a override (keysOfVal h override) with
      | some h1 => some (h1, .ref a)
      | none => none
  termination_by (fuel, 0)

/-- The `Object.keys(override).forEach` loop of `deepMerge`, writing into
the result node at address `a`. -/
def mergeKeys (fuel : ℕ) (h : Heap) (a : ℕ) (override : JSVal)
    (ks : List String) : Option Heap :=
  match ks with
  | [] => some h
  | k :: ks =>
    let ov := getKey h override k
    let bv := getKey h (.ref a) k
    if truthyVal bv ∧ isPlainObjVal h bv ∧ truthyVal ov ∧ isPlainObjVal h ov then
      match deepMergeGo fuel h bv ov with
      | some hm => mergeKeys fuel (hm.1.setKey a k hm.2) a override ks
      | none => none
    else
      mergeKeys fuel (h.setKey a k ov) a override ks
  termination_by (fuel, ks.length + 1)
end

/-- A pure JS value tree (references flattened out). -/
inductive JSTree where
  | prim (p : JSPrim)
  | node (isArray : Bool) (fields : List (String × JSTree))

/-- JS truthiness of a tree (objects and arrays are truthy). -/
def truthyTree : JSTree → Bool
  | .prim p => truthyPrim p
  | .node _ _ => true

/-- `Array.isArray` on a tree. -/
def treeIsArray : JSTree → Bool
  | .node ia _ => ia
  | .prim _ => false

/-- Index-keyed entries of a string, as trees. -/
def strEntriesT (s : String) : List (String × JSTree) :=
  s.toList.enum.map (fun p => (toString p.1, JSTree.prim (JSPrim.str (toString p.2))))

/-- The fields the `base.slice()` / `{...base}` copy starts from. -/
def treeSpreadFields : JSTree → List (String × JSTree)
  | .node _ fs => fs
  | .prim (.str s) => strEntriesT s
  | .prim _ => []

/-- `typeof v === 'object' && !Array.isArray(v)` on a truthy tree. -/
def isPlainTree : JSTree → Bool
  | .node false _ => true
  | _ => false

/-- Entries contributed by a primitive override (its indexed characters
for a string, nothing otherwise). -/
def primEntriesT : JSPrim → List (String × JSTree)
  | .str s => strEntriesT s
  | _ => []

mutual
/-- Value-level model of `deepMerge(base, override)` (lines 150-175) on
pure trees: falsy override returns the base, falsy base returns the
override, otherwise a copy of the base receives every override entry,
recursively merged when both sides are truthy non-array objects and
replaced otherwise. A primitive (string) override contributes its
index-keyed characters, for which the merge condition is always false. -/
def mergeJS (base override : JSTree) : JSTree :=
  if truthyTree override = false then base
  else if truthyTree base = false then override
  else
    match override with
    | .node _ ovf => .node (treeIsArray base) (mergeJSKeys (treeSpreadFields base) ovf)
    | .prim p =>
      .node (treeIsArray base)
        ((primEntriesT p).foldl (fun acc kv => upsert acc kv.1 kv.2) (treeSpreadFields base))
  termination_by sizeOf override

/-- The key loop of `mergeJS` over the override entries. -/
def mergeJSKeys (acc ovf : List (String × JSTree)) : List (String × JSTree) :=
  match ovf with
  | [] => acc
  | (k, ov) :: rest =>
    let bv := (lookupA acc k).getD (.prim .undef)
    if truthyTree bv ∧ isPlainTree bv ∧ truthyTree ov ∧ isPlainTree ov then
      mergeJSKeys (upsert acc k (mergeJS bv ov)) rest
    else
      mergeJSKeys (upsert acc k ov) rest
  termination_by sizeOf ovf
end

/-- Correspondence between a heap value and the pure tree it represents:
primitives match, and a reference points to a live node whose fields
pair up with the tree fields (JS object keys are unique, which the
relation records). -/
inductive ReprVal (h : Heap) : JSVal → JSTree → Prop where
  | prim (p : JSPrim) : ReprVal h (.prim p) (.prim p)
  | ref (a : ℕ) (ia : Bool) (fs : List (String × JSVal)) (ts : List (String × JSTree)) :
      h.mem a = some ⟨ia, fs⟩ →
      (fs.map Prod.fst).Nodup →
      fs.length = ts.length →
      (∀ p, p ∈ fs.zip ts → p.1.1 = p.2.1) →
      (∀ p, p ∈ fs.zip ts → ReprVal h p.1.2 p.2.2) →
      ReprVal h (.ref a) (.node ia ts)

/-! ## Claim C7: rounding modes -/

/-- Claim C7 (corrected), counterexample to the claim as stated: with
mode `up`, `roundCurrency` does not round upward. At value 0.004 and 2
decimals, upward rounding would give 0.01; the source falls through to
nearest rounding and returns 0, which is even strictly below the input,
so no upward rounding took place. -/
theorem c7_up_mode_counterexample :
    roundCurrency (1 / 250) (some 2) "up" = 0 ∧
    roundCurrency (1 / 250) (some 2) "up" < 1 / 250 := by
  have h : roundCurrency (1 / 250) (some 2) "up" = 0 := by
    show ((jsRound ((1 / 250 + jsEpsilon) * 10 ^ roundDecimals (some 2)) : ℤ) : ℚ) /
      10 ^ roundDecimals (some 2) = 0
    rw [show roundDecimals (some 2) = 2 from rfl]
    norm_num [jsRound_eq, jsEpsilon, Int.floor_eq_iff]
  refine ⟨h, ?_⟩
  rw [h]
  norm_num

/-- Claim C7, amended: the `switch` in `roundCurrency` has a single
branch, so every mode string (including `up` and `down`) behaves exactly
like the default `nearest_cent`; and that shared behaviour is rounding
to the nearest multiple of `10 ^ (-d)` (ties toward positive infinity)
for every value that clears the `Number.EPSILON` guard band below the
upper tie point. -/
theorem c7_roundCurrency_modes (v : ℚ) (decimals : Option ℤ) (mode : String) (n : ℤ)
    (h1 : (n : ℚ) - 1 / 2 ≤ v * 10 ^ roundDecimals decimals)
    (h2 : v * 10 ^ roundDecimals decimals <
      (n : ℚ) + 1 / 2 - jsEpsilon * 10 ^ roundDecimals decimals) :
    roundCurrency v decimals mode = roundCurrency v decimals "nearest_cent" ∧
    roundCurrency v decimals mode = (n : ℚ) / 10 ^ roundDecimals decimals ∧
    ∀ m : ℤ, |v - roundCurrency v decimals mode| ≤
      |v - (m : ℚ) / 10 ^ roundDecimals decimals| := by
  have hF : (0 : ℚ) < 10 ^ roundDecimals decimals := by positivity
  have hEps : (0 : ℚ) < jsEpsilon := by norm_num [jsEpsilon]
  have hEpsF : (0 : ℚ) < jsEpsilon * 10 ^ roundDecimals decimals := mul_pos hEps hF
  have hfloor : jsRound ((v + jsEpsilon) * 10 ^ roundDecimals decimals) = n := by
    rw [jsRound_eq, Int.floor_eq_iff]
    constructor
    · nlinarith
    · nlinarith
  have hval : roundCurrency v decimals mode = (n : ℚ) / 10 ^ roundDecimals decimals := by
    show ((jsRound ((v + jsEpsilon) * 10 ^ roundDecimals decimals) : ℤ) : ℚ) /
      10 ^ roundDecimals decimals = _
    rw [hfloor]
  refine ⟨rfl, hval, ?_⟩
  intro m
  rw [hval]
  have hnear : |v * 10 ^ roundDecimals decimals - n| ≤ 1 / 2 := by
    rw [abs_le]
    constructor <;> nlinarith
  have e1 : v - (n : ℚ) / 10 ^ roundDecimals decimals =
      (v * 10 ^ roundDecimals decimals - n) / 10 ^ roundDecimals decimals := by
    field_simp
  have e2 : v - (m : ℚ) / 10 ^ roundDecimals decimals =
      (v * 10 ^ roundDecimals decimals - m) / 10 ^ roundDecimals decimals := by
    field_simp
  rw [e1, e2, abs_div, abs_div, abs_of_pos hF, div_le_div_iff_of_pos_right hF]
  rcases eq_or_ne m n with rfl | hmn
  · exact le_refl _
  · have hone : (1 : ℚ) ≤ |(n : ℚ) - m| := by
      have hz : n - m ≠ 0 := sub_ne_zero.mpr (Ne.symm hmn)
      have h1a := Int.one_le_abs hz
      calc (1 : ℚ) = ((1 : ℤ) : ℚ) := by norm_num
        _ ≤ ((|n - m| : ℤ) : ℚ) := by exact_mod_cast h1a
        _ = |(n : ℚ) - m| := by rw [Int.cast_abs, Int.cast_sub]
    have htri : |(n : ℚ) - m| ≤ |(n : ℚ) - v * 10 ^ roundDecimals decimals| +
        |v * 10 ^ roundDecimals decimals - m| := abs_sub_le _ _ _
    have hcomm : |(n : ℚ) - v * 10 ^ roundDecimals decimals| =
        |v * 10 ^ roundDecimals decimals - n| := abs_sub_comm _ _
    linarith

/-- Witness for the C7 theorem at value 1.23, 2 decimals, mode `down`. -/
theorem c7_roundCurrency_modes_witness :
    roundCurrency (123 / 100) (some 2) "down" =
      roundCurrency (123 / 100) (some 2) "nearest_cent" ∧
    roundCurrency (123 / 100) (some 2) "down" =
      ((123 : ℤ) : ℚ) / 10 ^ roundDecimals (some 2) ∧
    ∀ m : ℤ, |123 / 100 - roundCurrency (123 / 100) (some 2) "down"| ≤
      |123 / 100 - (m : ℚ) / 10 ^ roundDecimals (some 2)| :=
  c7_roundCurrency_modes (123 / 100) (some 2) "down" 123
    (by rw [show roundDecimals (some 2) = 2 from rfl]; norm_num)
    (by rw [show roundDecimals (some 2) = 2 from rfl]; norm_num [jsEpsilon])

/-! ## Claim C1: progressive schedule is monotone and Lipschitz -/

/-- Bracket order used in the ascending-order hypothesis of claim C1:
`up_to` values non-decreasing, an unbounded bracket last. -/
def upToLEb (a b : Bracket) : Bool :=
  match a.up_to, b.up_to with
  | some x, some y => decide (x ≤ y)
  | _, none => true
  | none, some _ => false

/-- Brackets listed in ascending `up_to` order. -/
def ascendingBrackets : List Bracket → Bool
  | [] => true
  | [_] => true
  | a :: b :: rest => upToLEb a b && ascendingBrackets (b :: rest)

/-- The progressive loop is monotone in the remaining amount, for
non-negative rates. -/
theorem progressiveTaxLoop_mono (bs : List Bracket)
    (hr : ∀ b ∈ bs, 0 ≤ b.rate) :
    ∀ r1 r2 p, r1 ≤ r2 →
      progressiveTaxLoop bs r1 p ≤ progressiveTaxLoop bs r2 p := by
  induction bs with
  | nil => intro r1 r2 p _; simp [progressiveTaxLoop]
  | cons b bs ih =>
    intro r1 r2 p h12
    have hb : 0 ≤ b.rate := hr b (List.mem_cons_self b bs)
    have hbs : ∀ x ∈ bs, 0 ≤ x.rate := fun x hx => hr x (List.mem_cons_of_mem _ hx)
    cases hub : b.up_to with
    | none =>
      simp only [progressiveTaxLoop, hub]
      by_cases h1 : r1 ≤ 0 <;> by_cases h2 : r2 ≤ 0
      · rw [if_pos h1, if_pos h2]
      · rw [if_pos h1, if_neg h2]
        nlinarith [lt_of_not_le h2]
      · exact absurd (le_trans h12 h2) h1
      · rw [if_neg h1, if_neg h2]
        nlinarith
    | some u =>
      simp only [progressiveTaxLoop, hub]
      by_cases hsp : max 0 (u - p) ≤ 0
      · rw [if_pos (Or.inr hsp), if_pos (Or.inr hsp)]
        exact ih hbs r1 r2 u h12
      · have hsp' : 0 < max 0 (u - p) := lt_of_not_le hsp
        by_cases h1 : r1 ≤ 0
        · by_cases h2 : r2 ≤ 0
          · rw [if_pos (Or.inl h1), if_pos (Or.inl h2)]
            exact ih hbs r1 r2 u h12
          · have hc2 : ¬ (r2 ≤ 0 ∨ max 0 (u - p) ≤ 0) := by
              push_neg
              exact ⟨lt_of_not_le h2, hsp'⟩
            rw [if_pos (Or.inl h1), if_neg hc2]
            have hmin0 : 0 ≤ min r2 (max 0 (u - p)) :=
              le_min (le_of_not_le h2) (le_of_lt hsp')
            have hrec : r1 ≤ r2 - min r2 (max 0 (u - p)) := by
              have := min_le_left r2 (max 0 (u - p))
              linarith
            have := ih hbs r1 (r2 - min r2 (max 0 (u - p))) u hrec
            nlinarith
        · have h2 : ¬ r2 ≤ 0 := fun hc => h1 (le_trans h12 hc)
          have hc1 : ¬ (r1 ≤ 0 ∨ max 0 (u - p) ≤ 0) := by
            push_neg
            exact ⟨lt_of_not_le h1, hsp'⟩
          have hc2 : ¬ (r2 ≤ 0 ∨ max 0 (u - p) ≤ 0) := by
            push_neg
            exact ⟨lt_of_not_le h2, hsp'⟩
          rw [if_neg hc1, if_neg hc2]
          have hminmono : min r1 (max 0 (u - p)) ≤ min r2 (max 0 (u - p)) :=
            min_le_min h12 (le_refl _)
          have hrest : r1 - min r1 (max 0 (u - p)) ≤ r2 - min r2 (max 0 (u - p)) := by
            rcases min_cases r1 (max 0 (u - p)) with ⟨e1, he1⟩ | ⟨e1, he1⟩ <;>
              rcases min_cases r2 (max 0 (u - p)) with ⟨e2, he2⟩ | ⟨e2, he2⟩ <;>
                rw [e1, e2] <;> linarith
          have := ih hbs (r1 - min r1 (max 0 (u - p))) (r2 - min r2 (max 0 (u - p))) u hrest
          nlinarith

/-- The progressive loop moves at most `R` per unit of remaining amount,
when every rate lies in `[0, R]`. -/
theorem progressiveTaxLoop_lipschitz (bs : List Bracket) (R : ℚ) (hR : 0 ≤ R)
    (hr : ∀ b ∈ bs, 0 ≤ b.rate ∧ b.rate ≤ R) :
    ∀ r1 r2 p, r1 ≤ r2 →
      progressiveTaxLoop bs r2 p - progressiveTaxLoop bs r1 p ≤ R * (r2 - r1) := by
  induction bs with
  | nil =>
    intro r1 r2 p h
    simp only [progressiveTaxLoop]
    nlinarith
  | cons b bs ih =>
    intro r1 r2 p h12
    obtain ⟨hb0, hbR⟩ := hr b (List.mem_cons_self b bs)
    have hbs : ∀ x ∈ bs, 0 ≤ x.rate ∧ x.rate ≤ R :=
      fun x hx => hr x (List.mem_cons_of_mem _ hx)
    cases hub : b.up_to with
    | none =>
      simp only [progressiveTaxLoop, hub]
      by_cases h1 : r1 ≤ 0 <;> by_cases h2 : r2 ≤ 0
      · rw [if_pos h1, if_pos h2]
        nlinarith
      · rw [if_pos h1, if_neg h2]
        nlinarith [lt_of_not_le h2]
      · exact absurd (le_trans h12 h2) h1
      · rw [if_neg h1, if_neg h2]
        nlinarith
    | some u =>
      simp only [progressiveTaxLoop, hub]
      by_cases hsp : max 0 (u - p) ≤ 0
      · rw [if_pos (Or.inr hsp), if_pos (Or.inr hsp)]
        exact ih hbs r1 r2 u h12
      · have hsp' : 0 < max 0 (u - p) := lt_of_not_le hsp
        by_cases h1 : r1 ≤ 0
        · by_cases h2 : r2 ≤ 0
          · rw [if_pos (Or.inl h1), if_pos (Or.inl h2)]
            exact ih hbs r1 r2 u h12
          · have hc2 : ¬ (r2 ≤ 0 ∨ max 0 (u - p) ≤ 0) := by
              push_neg
              exact ⟨lt_of_not_le h2, hsp'⟩
            rw [if_pos (Or.inl h1), if_neg hc2]
            have hmin0 : 0 ≤ min r2 (max 0 (u - p)) :=
              le_min (le_of_not_le h2) (le_of_lt hsp')
            have hminle : min r2 (max 0 (u - p)) ≤ r2 := min_le_left _ _
            have hrec : r1 ≤ r2 - min r2 (max 0 (u - p)) := by linarith
            have hih := ih hbs r1 (r2 - min r2 (max 0 (u - p))) u hrec
            nlinarith
        · have h2 : ¬ r2 ≤ 0 := fun hc => h1 (le_trans h12 hc)
          have hc1 : ¬ (r1 ≤ 0 ∨ max 0 (u - p) ≤ 0) := by
            push_neg
            exact ⟨lt_of_not_le h1, hsp'⟩
          have hc2 : ¬ (r2 ≤ 0 ∨ max 0 (u - p) ≤ 0) := by
            push_neg
            exact ⟨lt_of_not_le h2, hsp'⟩
          rw [if_neg hc1, if_neg hc2]
          have hminmono : min r1 (max 0 (u - p)) ≤ min r2 (max 0 (u - p)) :=
            min_le_min h12 (le_refl _)
          have hmin0 : 0 ≤ min r1 (max 0 (u - p)) :=
            le_min (le_of_lt (lt_of_not_le h1)) (le_of_lt hsp')
          have hrest : r1 - min r1 (max 0 (u - p)) ≤ r2 - min r2 (max 0 (u - p)) := by
            rcases min_cases r1 (max 0 (u - p)) with ⟨e1, he1⟩ | ⟨e1, he1⟩ <;>
              rcases min_cases r2 (max 0 (u - p)) with ⟨e2, he2⟩ | ⟨e2, he2⟩ <;>
                rw [e1, e2] <;> linarith
          have hih := ih hbs (r1 - min r1 (max 0 (u - p))) (r2 - min r2 (max 0 (u - p))) u hrest
          nlinarith

/-- Rounding is monotone, so monotonicity survives the final
`roundCurrency` of the progressive branch. -/
theorem roundCurrency_mono (d : Option ℤ) (mode : String) {a b : ℚ} (h : a ≤ b) :
    roundCurrency a d mode ≤ roundCurrency b d mode := by
  have hF : (0 : ℚ) < 10 ^ roundDecimals d := by positivity
  show ((jsRound ((a + jsEpsilon) * 10 ^ roundDecimals d) : ℤ) : ℚ) / 10 ^ roundDecimals d ≤
    ((jsRound ((b + jsEpsilon) * 10 ^ roundDecimals d) : ℤ) : ℚ) / 10 ^ roundDecimals d
  refine (div_le_div_iff_of_pos_right hF).mpr ?_
  have : jsRound ((a + jsEpsilon) * 10 ^ roundDecimals d) ≤
      jsRound ((b + jsEpsilon) * 10 ^ roundDecimals d) := by
    rw [jsRound_eq, jsRound_eq]
    apply Int.floor_le_floor
    have := mul_le_mul_of_nonneg_right (add_le_add_right h jsEpsilon) (le_of_lt hF)
    linarith
  exact_mod_cast this

/-- Claim C1: for a progressive rule set with ascending brackets and
rates within `[0, R]`, `computeTaxByRules` computes the bracket loop
(per bracket `min(remaining, span) * rate`, then rounding), the rounded
amount is monotone non-decreasing in taxable income, and the unrounded
total is `R`-Lipschitz (hence continuous across bracket boundaries). -/
theorem c1_progressive_monotone (rules : IncomeTaxRules) (R : ℚ)
    (d : Option ℤ) (mode : String) (e : Option ExtraCtx) (reg : Option FormulaRegistry)
    (hty : strOr rules.type "progressive" = "progressive")
    (_hasc : ascendingBrackets (rules.brackets.getD []) = true)
    (hR : 0 ≤ R)
    (hr : ∀ b ∈ rules.brackets.getD [], 0 ≤ b.rate ∧ b.rate ≤ R) :
    (∀ x, computeTaxByRules x (some rules) d mode e reg =
      .ok ⟨roundCurrency (progressiveTaxLoop (rules.brackets.getD []) (max 0 x) 0) d mode,
           "progressive", none⟩) ∧
    (∀ x y res1 res2, x ≤ y →
      computeTaxByRules x (some rules) d mode e reg = .ok res1 →
      computeTaxByRules y (some rules) d mode e reg = .ok res2 →
      res1.amount ≤ res2.amount) ∧
    (∀ x y, x ≤ y →
      progressiveTaxLoop (rules.brackets.getD []) (max 0 y) 0 -
        progressiveTaxLoop (rules.brackets.getD []) (max 0 x) 0 ≤ R * (y - x)) := by
  have hdisp : ∀ x, computeTaxByRules x (some rules) d mode e reg =
      .ok ⟨roundCurrency (progressiveTaxLoop (rules.brackets.getD []) (max 0 x) 0) d mode,
           "progressive", none⟩ := by
    intro x
    simp [computeTaxByRules, hty]
  have hr0 : ∀ b ∈ rules.brackets.getD [], 0 ≤ b.rate := fun b hb => (hr b hb).1
  refine ⟨hdisp, ?_, ?_⟩
  · intro x y res1 res2 hxy hx hy
    rw [hdisp x] at hx
    rw [hdisp y] at hy
    have e1 := (Except.ok.injEq _ _).mp hx.symm
    have e2 := (Except.ok.injEq _ _).mp hy.symm
    rw [e1, e2]
    exact roundCurrency_mono d mode
      (progressiveTaxLoop_mono _ hr0 _ _ 0 (max_le_max (le_refl 0) hxy))
  · intro x y hxy
    have hmax : max 0 x ≤ max 0 y := max_le_max (le_refl 0) hxy
    have hlip := progressiveTaxLoop_lipschitz _ R hR hr (max 0 x) (max 0 y) 0 hmax
    have hshrink : max 0 y - max 0 x ≤ y - x := by
      rcases max_cases 0 x with ⟨e1, he1⟩ | ⟨e1, he1⟩ <;>
        rcases max_cases 0 y with ⟨e2, he2⟩ | ⟨e2, he2⟩ <;> rw [e1, e2] <;> linarith
    nlinarith [progressiveTaxLoop_mono _ hr0 (max 0 x) (max 0 y) 0 hmax]

/-- Witness for C1 at a two-bracket schedule (10 percent to 10000, then
40 percent unbounded), bound `R = 2/5`. -/
theorem c1_progressive_monotone_witness :
    (∀ x, computeTaxByRules x
        (some { type := none, brackets := some [⟨some 10000, 1 / 10⟩, ⟨none, 2 / 5⟩] })
        (some 2) "nearest_cent" none none =
      .ok ⟨roundCurrency (progressiveTaxLoop
            (Option.getD (some [⟨some 10000, 1 / 10⟩, ⟨none, 2 / 5⟩]) []) (max 0 x) 0)
          (some 2) "nearest_cent", "progressive", none⟩) ∧
    (∀ x y res1 res2, x ≤ y →
      computeTaxByRules x
        (some { type := none, brackets := some [⟨some 10000, 1 / 10⟩, ⟨none, 2 / 5⟩] })
        (some 2) "nearest_cent" none none = .ok res1 →
      computeTaxByRules y
        (some { type := none, brackets := some [⟨some 10000, 1 / 10⟩, ⟨none, 2 / 5⟩] })
        (some 2) "nearest_cent" none none = .ok res2 →
      res1.amount ≤ res2.amount) ∧
    (∀ x y, x ≤ y →
      progressiveTaxLoop
          (Option.getD (some [⟨some 10000, 1 / 10⟩, ⟨none, 2 / 5⟩]) []) (max 0 y) 0 -
        progressiveTaxLoop
          (Option.getD (some [⟨some 10000, 1 / 10⟩, ⟨none, 2 / 5⟩]) []) (max 0 x) 0 ≤
      (2 / 5) * (y - x)) :=
  c1_progressive_monotone
    { type := none, brackets := some [⟨some 10000, 1 / 10⟩, ⟨none, 2 / 5⟩] } (2 / 5)
    (some 2) "nearest_cent" none none (by decide) (by decide) (by norm_num)
    (by intro b hb; fin_cases hb <;> norm_num)

/-! ## Claim C4: contribution base clamp -/

/-- Claim C4 (corrected), counterexample to the claim as stated: the
claim quantifies over every scheme with optional floor and ceiling, but
for a scheme whose floor (10) exceeds its ceiling (5) the clamp raises
the base to the floor and then caps it at the ceiling, so the effective
base is 5 — outside the (empty) interval [10, 5] and nonzero although
the clamped value is not negative. A rate-1 scheme exposes the base as
the employee amount. -/
theorem c4_floor_above_ceiling_counterexample :
    effectiveContribBase 3 10 (some 5) = 5 ∧
    ¬ (10 ≤ effectiveContribBase 3 10 (some 5)) ∧
    effectiveContribBase 3 10 (some 5) ≠ 0 ∧
    (computeContributionsAnnual 3
      (some ⟨[("x", { applies := some true, employee_rate := some 1, floor := some 10,
                      ceiling := some 5 })], none⟩)
      ⟨"SI", none⟩).employeeById = [("x", 5)] := by
  refine ⟨by norm_num [effectiveContribBase], by norm_num [effectiveContribBase],
    by norm_num [effectiveContribBase], ?_⟩
  norm_num [computeContributionsAnnual, processEntry, effectiveContribBase, qOr, strOr,
    upsert, lowIncomeTierRate, List.foldl_cons, List.foldl_nil]
  rfl

/-- Claim C4, amended: for every gross amount of arbitrary magnitude
(negative included) and every scheme whose floor does not exceed its
configured ceiling, the effective contribution base is the non-negative
part of a value lying within [floor, ceiling] (above the floor when no
ceiling is configured) — so it lies in the interval, or equals 0 when
the clamped value would be negative. In particular the scheme with
floor 0, ceiling 50000 and employee rate 0.1 on a gross of 80000 yields
employee amount exactly 5000.00, not 8000.00. -/
theorem c4_contribution_base_clamped (g floorV : ℚ) (ceiling : Option ℚ)
    (hfc : ∀ c, ceiling = some c → floorV ≤ c) :
    (∃ clamped, floorV ≤ clamped ∧ (∀ c, ceiling = some c → clamped ≤ c) ∧
      effectiveContribBase g floorV ceiling = max 0 clamped) ∧
    (computeContributionsAnnual 80000
      (some ⟨[("health", { applies := some true, employee_rate := some (1 / 10),
                           floor := some 0, ceiling := some 50000 })], none⟩)
      ⟨"DE", none⟩).employeeById = [("health", 5000)] ∧
    (5000 : ℚ) ≠ 8000 := by
  refine ⟨?_,
    by norm_num [computeContributionsAnnual, processEntry, effectiveContribBase, qOr, strOr,
      upsert, lowIncomeTierRate, List.foldl_cons, List.foldl_nil]; rfl,
    by norm_num⟩
  cases ceiling with
  | none =>
    simp only [effectiveContribBase]
    by_cases h1 : g < floorV
    · rw [if_pos h1]
      refine ⟨floorV, le_refl _, ?_, ?_⟩
      · intro c hc
        cases hc
      · by_cases h2 : floorV < 0
        · rw [if_pos h2, max_eq_left (le_of_lt h2)]
        · rw [if_neg h2, max_eq_right (le_of_not_lt h2)]
    · rw [if_neg h1]
      refine ⟨g, le_of_not_lt h1, ?_, ?_⟩
      · intro c hc
        cases hc
      · by_cases h2 : g < 0
        · rw [if_pos h2, max_eq_left (le_of_lt h2)]
        · rw [if_neg h2, max_eq_right (le_of_not_lt h2)]
  | some c =>
    have hfc' := hfc c rfl
    simp only [effectiveContribBase]
    by_cases h1 : g < floorV
    · rw [if_pos h1]
      have h3 : ¬ floorV > c := not_lt.mpr hfc'
      rw [if_neg h3]
      refine ⟨floorV, le_refl _, ?_, ?_⟩
      · intro c2 hc2
        cases hc2
        exact hfc'
      · by_cases h2 : floorV < 0
        · rw [if_pos h2, max_eq_left (le_of_lt h2)]
        · rw [if_neg h2, max_eq_right (le_of_not_lt h2)]
    · rw [if_neg h1]
      by_cases h3 : g > c
      · rw [if_pos h3]
        refine ⟨c, hfc', ?_, ?_⟩
        · intro c2 hc2
          cases hc2
          exact le_refl _
        · by_cases h2 : c < 0
          · rw [if_pos h2, max_eq_left (le_of_lt h2)]
          · rw [if_neg h2, max_eq_right (le_of_not_lt h2)]
      · rw [if_neg h3]
        refine ⟨g, le_of_not_lt h1, ?_, ?_⟩
        · intro c2 hc2
          cases hc2
          exact le_of_not_lt h3
        · by_cases h2 : g < 0
          · rw [if_pos h2, max_eq_left (le_of_lt h2)]
          · rw [if_neg h2, max_eq_right (le_of_not_lt h2)]

/-- Witness for the C4 theorem at a negative gross with floor 0 and
ceiling 50000. -/
theorem c4_contribution_base_clamped_witness :
    (∃ clamped, (0 : ℚ) ≤ clamped ∧ (∀ c, (some 50000 : Option ℚ) = some c → clamped ≤ c) ∧
      effectiveContribBase (-7) 0 (some 50000) = max 0 clamped) ∧
    (computeContributionsAnnual 80000
      (some ⟨[("health", { applies := some true, employee_rate := some (1 / 10),
                           floor := some 0, ceiling := some 50000 })], none⟩)
      ⟨"DE", none⟩).employeeById = [("health", 5000)] ∧
    (5000 : ℚ) ≠ 8000 :=
  c4_contribution_base_clamped (-7) 0 (some 50000)
    (by intro c hc; cases hc; norm_num)

/-! ## Claim C10: the two applies defaults -/

/-- Claim C10: the default for a missing `applies` is asymmetric. In
`computeContributionsAnnual` an entry whose `applies` is not literally
`true` (absent or false) contributes zero for employee and employer
while still appearing in the output maps; in `computeOtherTaxesAnnual` a
rule whose `applies` is absent behaves exactly as one with
`applies: true`, and only a literal `applies: false` zeroes it out. -/
theorem c10_applies_asymmetry
    (gross : ℚ) (opts : ContribOpts) (acc : ContribResult) (id : String)
    (entry : ContribEntry) (hap : entry.applies ≠ some true)
    (g2 t2 i2 : ℚ) (d2 : Option ℤ) (m2 : String) (acc2 : OtherTaxesResult)
    (key : String) (ruleAbsent ruleOff : OtherTaxRule)
    (habs : ruleAbsent.applies = none) (hoff : ruleOff.applies = some false) :
    processEntry gross opts acc id entry =
      { acc with
        labelsById := upsert acc.labelsById id (strOr entry.label id)
        employeeById := upsert acc.employeeById id 0
        employerById := upsert acc.employerById id 0 } ∧
    processOtherTax g2 t2 i2 d2 m2 acc2 key ruleAbsent =
      processOtherTax g2 t2 i2 d2 m2 acc2 key { ruleAbsent with applies := some true } ∧
    processOtherTax g2 t2 i2 d2 m2 acc2 key ruleOff =
      { acc2 with
        byId := upsert acc2.byId key 0
        employeeById := upsert acc2.employeeById key 0
        employerById := upsert acc2.employerById key 0 } := by
  refine ⟨?_, ?_, ?_⟩
  · have : (entry.applies = some true) = False := by
      simp [hap]
    simp [processEntry, this]
  · simp [processOtherTax, habs]
  · simp [processOtherTax, hoff]

/-- Witness for C10 at concrete entries and rules. -/
theorem c10_applies_asymmetry_witness :
    processEntry 1000 ⟨"SI", none⟩ {} "health" { employee_rate := some (1 / 10) } =
      { ({} : ContribResult) with
        labelsById := upsert ({} : ContribResult).labelsById "health"
          (strOr ({ employee_rate := some (1 / 10) } : ContribEntry).label "health")
        employeeById := upsert ({} : ContribResult).employeeById "health" 0
        employerById := upsert ({} : ContribResult).employerById "health" 0 } ∧
    processOtherTax 1000 900 100 (some 2) "nearest_cent" {} "levy" { rate := some (1 / 20) } =
      processOtherTax 1000 900 100 (some 2) "nearest_cent" {} "levy"
        { ({ rate := some (1 / 20) } : OtherTaxRule) with applies := some true } ∧
    processOtherTax 1000 900 100 (some 2) "nearest_cent" {} "levy"
        { applies := some false, rate := some (1 / 20) } =
      { ({} : OtherTaxesResult) with
        byId := upsert ({} : OtherTaxesResult).byId "levy" 0
        employeeById := upsert ({} : OtherTaxesResult).employeeById "levy" 0
        employerById := upsert ({} : OtherTaxesResult).employerById "levy" 0 } :=
  c10_applies_asymmetry 1000 ⟨"SI", none⟩ {} "health" { employee_rate := some (1 / 10) }
    (by decide) 1000 900 100 (some 2) "nearest_cent" {} "levy"
    { rate := some (1 / 20) } { applies := some false, rate := some (1 / 20) }
    rfl rfl

/-! ## Claim C2: formula-path error handling -/

/-- Claim C2 (corrected), counterexample to the claim as stated: a
formula rule set whose definition is absent (`use_formula: false` here,
with a method name present) does not raise an error — `computeTaxByRules`
silently returns a numeric zero-tax result, tagged
`formula_not_configured` (source lines 377-388). -/
theorem c2_formula_not_configured_counterexample :
    computeTaxByRules 50000
      (some { type := some "formula",
              formula := some { use_formula := some false, method := some "de_tariff" } })
      (some 2) "nearest_cent" none none =
      .ok ⟨0, "formula", some "formula_not_configured"⟩ := by
  rfl

/-- Claim C2, amended: on a formula-typed rule set, `computeTaxByRules`
returns zero tax (with a `formula_not_configured` marker, not an error)
when `use_formula` is not `true` or the method name is missing; in every
other case it is strict: it fails when the registry is absent, when the
method is unregistered, when the implementation throws, and when the
implementation result is non-finite or negative; a finite non-negative
result is rounded and returned. -/
theorem c2_formula_failures (taxable : ℚ) (rules : IncomeTaxRules) (f : FormulaDef)
    (d : Option ℤ) (mode : String) (e : Option ExtraCtx)
    (hty : strOr rules.type "progressive" = "formula")
    (hf : rules.formula = some f) :
    ((f.use_formula ≠ some true ∨ strOrNull f.method = none) →
      ∀ reg, computeTaxByRules taxable (some rules) d mode e reg =
        .ok ⟨0, "formula", some "formula_not_configured"⟩) ∧
    (∀ m, f.use_formula = some true → strOrNull f.method = some m →
      computeTaxByRules taxable (some rules) d mode e none =
        .error ⟨"app.error.generic", some "formula_registry_missing"⟩) ∧
    (∀ m (reg : FormulaRegistry), f.use_formula = some true → strOrNull f.method = some m →
      reg m = none →
      computeTaxByRules taxable (some rules) d mode e (some reg) =
        .error ⟨"app.error.generic", some "formula_not_registered"⟩) ∧
    (∀ m (reg : FormulaRegistry) impl, f.use_formula = some true →
      strOrNull f.method = some m → reg m = some impl →
      impl ⟨max 0 taxable, rules, f.parameters.getD [], d, mode, e⟩ = .error () →
      computeTaxByRules taxable (some rules) d mode e (some reg) =
        .error ⟨"app.error.generic", some "formula_execution_error"⟩) ∧
    (∀ m (reg : FormulaRegistry) impl n, f.use_formula = some true →
      strOrNull f.method = some m → reg m = some impl →
      impl ⟨max 0 taxable, rules, f.parameters.getD [], d, mode, e⟩ = .ok n →
      (n.isFiniteB = false ∨ n.ltZero = true) →
      computeTaxByRules taxable (some rules) d mode e (some reg) =
        .error ⟨"app.error.generic", some "formula_invalid_result"⟩) ∧
    (∀ m (reg : FormulaRegistry) impl q, f.use_formula = some true →
      strOrNull f.method = some m → reg m = some impl →
      impl ⟨max 0 taxable, rules, f.parameters.getD [], d, mode, e⟩ = .ok (.fin q) →
      0 ≤ q →
      computeTaxByRules taxable (some rules) d mode e (some reg) =
        .ok ⟨roundCurrency q d mode, "formula", none⟩) := by
  have hne1 : ("formula" = "progressive") = False := by simp
  have hne2 : ("formula" = "flat") = False := by simp
  refine ⟨?_, ?_, ?_, ?_, ?_, ?_⟩
  · rintro (hu | hm) reg <;>
      simp only [computeTaxByRules, hty, hne1, hne2, if_false, if_true, hf, Option.getD_some]
    · cases hsm : strOrNull f.method with
      | none => simp
      | some m => simp [hsm, hu]
    · simp [hm]
  · intro m hu hm
    simp [computeTaxByRules, hty, hne1, hne2, hf, hm, hu]
  · intro m reg hu hm hreg
    simp [computeTaxByRules, hty, hne1, hne2, hf, hm, hu, hreg]
  · intro m reg impl hu hm hreg himpl
    simp [computeTaxByRules, hty, hne1, hne2, hf, hm, hu, hreg, himpl]
  · intro m reg impl n hu hm hreg himpl hbad
    rcases hbad with hb | hb <;>
      simp [computeTaxByRules, hty, hne1, hne2, hf, hm, hu, hreg, himpl, hb]
  · intro m reg impl q hu hm hreg himpl hq
    have h1 : (JSNumber.fin q).isFiniteB = true := rfl
    have h2 : (JSNumber.fin q).ltZero = false := by
      simp [JSNumber.ltZero, not_lt.mpr hq]
    simp [computeTaxByRules, hty, hne1, hne2, hf, hm, hu, hreg, himpl, h1, h2, JSNumber.toQ]

/-- Witness for C2 on a concrete formula rule set: a registry whose
implementation returns the constant 1234 yields the rounded amount. -/
theorem c2_formula_failures_witness :
    (((some true : Option Bool) ≠ some true ∨
        strOrNull (some "m") = none) →
      ∀ reg, computeTaxByRules 1000
        (some { type := some "formula",
                formula := some { use_formula := some true, method := some "m" } })
        (some 2) "nearest_cent" none reg =
        .ok ⟨0, "formula", some "formula_not_configured"⟩) ∧
    (∀ m, (some true : Option Bool) = some true → strOrNull (some "m") = some m →
      computeTaxByRules 1000
        (some { type := some "formula",
                formula := some { use_formula := some true, method := some "m" } })
        (some 2) "nearest_cent" none none =
        .error ⟨"app.error.generic", some "formula_registry_missing"⟩) ∧
    (∀ m (reg : FormulaRegistry), (some true : Option Bool) = some true →
      strOrNull (some "m") = some m → reg m = none →
      computeTaxByRules 1000
        (some { type := some "formula",
                formula := some { use_formula := some true, method := some "m" } })
        (some 2) "nearest_cent" none (some reg) =
        .error ⟨"app.error.generic", some "formula_not_registered"⟩) ∧
    (∀ m (reg : FormulaRegistry) impl, (some true : Option Bool) = some true →
      strOrNull (some "m") = some m → reg m = some impl →
      impl ⟨max 0 1000,
            { type := some "formula",
              formula := some { use_formula := some true, method := some "m" } },
            Option.getD (FormulaDef.parameters { use_formula := some true, method := some "m" }) [],
            some 2, "nearest_cent", none⟩ = .error () →
      computeTaxByRules 1000
        (some { type := some "formula",
                formula := some { use_formula := some true, method := some "m" } })
        (some 2) "nearest_cent" none (some reg) =
        .error ⟨"app.error.generic", some "formula_execution_error"⟩) ∧
    (∀ m (reg : FormulaRegistry) impl n, (some true : Option Bool) = some true →
      strOrNull (some "m") = some m → reg m = some impl →
      impl ⟨max 0 1000,
            { type := some "formula",
              formula := some { use_formula := some true, method := some "m" } },
            Option.getD (FormulaDef.parameters { use_formula := some true, method := some "m" }) [],
            some 2, "nearest_cent", none⟩ = .ok n →
      (n.isFiniteB = false ∨ n.ltZero = true) →
      computeTaxByRules 1000
        (some { type := some "formula",
                formula := some { use_formula := some true, method := some "m" } })
        (some 2) "nearest_cent" none (some reg) =
        .error ⟨"app.error.generic", some "formula_invalid_result"⟩) ∧
    (∀ m (reg : FormulaRegistry) impl q, (some true : Option Bool) = some true →
      strOrNull (some "m") = some m → reg m = some impl →
      impl ⟨max 0 1000,
            { type := some "formula",
              formula := some { use_formula := some true, method := some "m" } },
            Option.getD (FormulaDef.parameters { use_formula := some true, method := some "m" }) [],
            some 2, "nearest_cent", none⟩ = .ok (.fin q) →
      0 ≤ q →
      computeTaxByRules 1000
        (some { type := some "formula",
                formula := some { use_formula := some true, method := some "m" } })
        (some 2) "nearest_cent" none (some reg) =
        .ok ⟨roundCurrency q (some 2) "nearest_cent", "formula", none⟩) :=
  c2_formula_failures 1000
    { type := some "formula",
      formula := some { use_formula := some true, method := some "m" } }
    { use_formula := some true, method := some "m" }
    (some 2) "nearest_cent" none rfl rfl

/-! ## Claim C9: salary input validation -/

/-- With all context guards passing, a null or empty salary amount makes
`computeSalary` raise the no-salary error. -/
theorem computeSalary_noSalary_err (options : SalaryOptions) (registry : Option FormulaRegistry)
    (ctx : TaxContext) (cm : CalcMode)
    (hctx : options.taxContext = some ctx)
    (hde : ¬ (ctx.countryCode = "DE" ∧ ctx.yearRules.tax_classes.isSome ∧
              ctx.taxClass.getD "" = ""))
    (hcm : ctx.calcMode = some cm)
    (hmatch : ¬ (cm.countryCode ≠ ctx.countryCode ∨ cm.year ≠ ctx.year ∨
                 cm.taxClass.getD "" ≠ ctx.taxClass.getD ""))
    (hsal : options.salaryAmount = .null ∨ options.salaryAmount = .emptyStr) :
    computeSalary options registry = .error ⟨"error.noSalary", none⟩ := by
  simp only [computeSalary, hctx, hcm]
  rw [if_neg hde, if_neg hmatch, if_pos hsal]
  rfl

/-- With all context guards passing and a non-null, non-empty salary
amount, a failing `toAnnual` propagates its error out of
`computeSalary`. -/
theorem computeSalary_toAnnual_err (options : SalaryOptions) (registry : Option FormulaRegistry)
    (ctx : TaxContext) (cm : CalcMode) (err : CalcError)
    (hctx : options.taxContext = some ctx)
    (hde : ¬ (ctx.countryCode = "DE" ∧ ctx.yearRules.tax_classes.isSome ∧
              ctx.taxClass.getD "" = ""))
    (hcm : ctx.calcMode = some cm)
    (hmatch : ¬ (cm.countryCode ≠ ctx.countryCode ∨ cm.year ≠ ctx.year ∨
                 cm.taxClass.getD "" ≠ ctx.taxClass.getD ""))
    (hns : ¬ (options.salaryAmount = .null ∨ options.salaryAmount = .emptyStr))
    (hta : toAnnual options.salaryAmount.toNumber options.salaryPeriod = .error err) :
    computeSalary options registry = .error err := by
  simp only [computeSalary, hctx, hcm]
  rw [if_neg hde, if_neg hmatch, if_neg hns, hta]
  rfl

/-- For an invalid salary input (null, empty, non-finite conversion,
negative conversion, or unknown period), `computeSalary` never returns a
result, whatever the tax context looks like. -/
theorem computeSalary_invalid_salary_no_result (opts : SalaryOptions)
    (reg : Option FormulaRegistry) (r : SalaryResult)
    (hbad : opts.salaryAmount = .null ∨ opts.salaryAmount = .emptyStr ∨
      opts.salaryAmount.toNumber.isFiniteB = false ∨
      (∃ q, opts.salaryAmount = .num (.fin q) ∧ q < 0) ∨
      (opts.salaryPeriod ≠ "monthly" ∧ opts.salaryPeriod ≠ "yearly")) :
    computeSalary opts reg ≠ .ok r := by
  intro hok
  rcases hctxo : opts.taxContext with _ | ctx
  · simp only [computeSalary, hctxo] at hok
    exact Except.noConfusion hok
  by_cases hde : ctx.countryCode = "DE" ∧ ctx.yearRules.tax_classes.isSome ∧
      ctx.taxClass.getD "" = ""
  · simp only [computeSalary, hctxo] at hok
    rw [if_pos hde] at hok
    exact Except.noConfusion hok
  rcases hcmo : ctx.calcMode with _ | cm
  · simp only [computeSalary, hctxo, hcmo] at hok
    rw [if_neg hde] at hok
    exact Except.noConfusion hok
  by_cases hmm : cm.countryCode ≠ ctx.countryCode ∨ cm.year ≠ ctx.year ∨
      cm.taxClass.getD "" ≠ ctx.taxClass.getD ""
  · simp only [computeSalary, hctxo, hcmo] at hok
    rw [if_neg hde, if_pos hmm] at hok
    exact Except.noConfusion hok
  by_cases hns : opts.salaryAmount = .null ∨ opts.salaryAmount = .emptyStr
  · rw [computeSalary_noSalary_err opts reg ctx cm hctxo hde hcmo hmm hns] at hok
    exact Except.noConfusion hok
  have hta : ∃ err, toAnnual opts.salaryAmount.toNumber opts.salaryPeriod = .error err := by
    rcases hbad with h | h | h | ⟨q, hq, hneg⟩ | ⟨hmon, hyr⟩
    · exact absurd (Or.inl h) hns
    · exact absurd (Or.inr h) hns
    · refine ⟨⟨"error.invalidSalary", none⟩, ?_⟩
      rcases hfn : opts.salaryAmount.toNumber with _ | _ | _ | q
      · rfl
      · rfl
      · rfl
      · rw [hfn] at h
        simp [JSNumber.isFiniteB] at h
    · refine ⟨⟨"error.invalidSalary", none⟩, ?_⟩
      rw [hq]
      simp [toAnnual, JSInput.toNumber, hneg]
    · rcases hfn : opts.salaryAmount.toNumber with _ | _ | _ | q
      · exact ⟨⟨"error.invalidSalary", none⟩, rfl⟩
      · exact ⟨⟨"error.invalidSalary", none⟩, rfl⟩
      · exact ⟨⟨"error.invalidSalary", none⟩, rfl⟩
      · by_cases hneg : q < 0
        · refine ⟨⟨"error.invalidSalary", none⟩, ?_⟩
          simp [toAnnual, hneg]
        · refine ⟨⟨"app.error.generic", some "invalid_period"⟩, ?_⟩
          simp [toAnnual, hneg, hmon, hyr]
  obtain ⟨err, hta⟩ := hta
  rw [computeSalary_toAnnual_err opts reg ctx cm err hctxo hde hcmo hmm hns hta] at hok
  exact Except.noConfusion hok

/-- Claim C9: once the context guards pass, `computeSalary` rejects a
null or empty salary with the no-salary error; a salary converting to a
negative or non-finite number, or an unknown period, raises the
corresponding error at the `toAnnual` annualization step; and no
breakdown is ever returned for any such input, whatever the context. -/
theorem c9_salary_input_rejected (options : SalaryOptions) (registry : Option FormulaRegistry)
    (ctx : TaxContext) (cm : CalcMode)
    (hctx : options.taxContext = some ctx)
    (hde : ¬ (ctx.countryCode = "DE" ∧ ctx.yearRules.tax_classes.isSome ∧
              ctx.taxClass.getD "" = ""))
    (hcm : ctx.calcMode = some cm)
    (hmatch : ¬ (cm.countryCode ≠ ctx.countryCode ∨ cm.year ≠ ctx.year ∨
                 cm.taxClass.getD "" ≠ ctx.taxClass.getD "")) :
    ((options.salaryAmount = .null ∨ options.salaryAmount = .emptyStr) →
      computeSalary options registry = .error ⟨"error.noSalary", none⟩) ∧
    (∀ q, options.salaryAmount = .num (.fin q) → q < 0 →
      computeSalary options registry = .error ⟨"error.invalidSalary", none⟩) ∧
    (∀ n, options.salaryAmount = .num n → n.isFiniteB = false →
      computeSalary options registry = .error ⟨"error.invalidSalary", none⟩) ∧
    (∀ q, options.salaryAmount = .num (.fin q) → 0 ≤ q →
      options.salaryPeriod ≠ "monthly" → options.salaryPeriod ≠ "yearly" →
      computeSalary options registry = .error ⟨"app.error.generic", some "invalid_period"⟩) ∧
    (∀ (opts2 : SalaryOptions) (reg2 : Option FormulaRegistry) (r : SalaryResult),
      (opts2.salaryAmount = .null ∨ opts2.salaryAmount = .emptyStr ∨
       opts2.salaryAmount.toNumber.isFiniteB = false ∨
       (∃ q, opts2.salaryAmount = .num (.fin q) ∧ q < 0) ∨
       (opts2.salaryPeriod ≠ "monthly" ∧ opts2.salaryPeriod ≠ "yearly")) →
      computeSalary opts2 reg2 ≠ .ok r) := by
  refine ⟨?_, ?_, ?_, ?_, ?_⟩
  · intro hsal
    exact computeSalary_noSalary_err options registry ctx cm hctx hde hcm hmatch hsal
  · intro q hq hneg
    have hns : ¬ (options.salaryAmount = .null ∨ options.salaryAmount = .emptyStr) := by
      rw [hq]
      rintro (h | h) <;> cases h
    refine computeSalary_toAnnual_err options registry ctx cm _ hctx hde hcm hmatch hns ?_
    rw [hq]
    simp [toAnnual, JSInput.toNumber, hneg]
  · intro n hn hfin
    have hns : ¬ (options.salaryAmount = .null ∨ options.salaryAmount = .emptyStr) := by
      rw [hn]
      rintro (h | h) <;> cases h
    refine computeSalary_toAnnual_err options registry ctx cm _ hctx hde hcm hmatch hns ?_
    rw [hn]
    cases n with
    | fin q => simp [JSNumber.isFiniteB] at hfin
    | nan => rfl
    | posInf => rfl
    | negInf => rfl
  · intro q hq hpos hmon hyr
    have hns : ¬ (options.salaryAmount = .null ∨ options.salaryAmount = .emptyStr) := by
      rw [hq]
      rintro (h | h) <;> cases h
    refine computeSalary_toAnnual_err options registry ctx cm _ hctx hde hcm hmatch hns ?_
    rw [hq]
    simp [toAnnual, JSInput.toNumber, not_lt.mpr hpos, hmon, hyr]
  · intro opts2 reg2 r hbad
    exact computeSalary_invalid_salary_no_result opts2 reg2 r hbad

/-- Witness for C9 at a concrete flat-tax context and a negative salary. -/
theorem c9_salary_input_rejected_witness :
    (((JSInput.num (.fin (-5)) : JSInput) = .null ∨
        (JSInput.num (.fin (-5)) : JSInput) = .emptyStr) →
      computeSalary
        ⟨some { countryCode := "SI", year := "2026",
                yearRules := { income_tax := some { type := some "flat", flat_rate := some (1 / 5) } },
                incomeTax := some { type := some "flat", flat_rate := some (1 / 5) },
                socialContributions := some ⟨[("health", { applies := some false })], none⟩,
                calcMode := some ⟨"SI", "2026", none, "flat"⟩ },
         .num (.fin (-5)), "monthly", none, none⟩ none =
        .error ⟨"error.noSalary", none⟩) ∧
    (∀ q, (JSInput.num (.fin (-5)) : JSInput) = .num (.fin q) → q < 0 →
      computeSalary
        ⟨some { countryCode := "SI", year := "2026",
                yearRules := { income_tax := some { type := some "flat", flat_rate := some (1 / 5) } },
                incomeTax := some { type := some "flat", flat_rate := some (1 / 5) },
                socialContributions := some ⟨[("health", { applies := some false })], none⟩,
                calcMode := some ⟨"SI", "2026", none, "flat"⟩ },
         .num (.fin (-5)), "monthly", none, none⟩ none =
        .error ⟨"error.invalidSalary", none⟩) ∧
    (∀ n, (JSInput.num (.fin (-5)) : JSInput) = .num n → n.isFiniteB = false →
      computeSalary
        ⟨some { countryCode := "SI", year := "2026",
                yearRules := { income_tax := some { type := some "flat", flat_rate := some (1 / 5) } },
                incomeTax := some { type := some "flat", flat_rate := some (1 / 5) },
                socialContributions := some ⟨[("health", { applies := some false })], none⟩,
                calcMode := some ⟨"SI", "2026", none, "flat"⟩ },
         .num (.fin (-5)), "monthly", none, none⟩ none =
        .error ⟨"error.invalidSalary", none⟩) ∧
    (∀ q, (JSInput.num (.fin (-5)) : JSInput) = .num (.fin q) → 0 ≤ q →
      ("monthly" : String) ≠ "monthly" → ("monthly" : String) ≠ "yearly" →
      computeSalary
        ⟨some { countryCode := "SI", year := "2026",
                yearRules := { income_tax := some { type := some "flat", flat_rate := some (1 / 5) } },
                incomeTax := some { type := some "flat", flat_rate := some (1 / 5) },
                socialContributions := some ⟨[("health", { applies := some false })], none⟩,
                calcMode := some ⟨"SI", "2026", none, "flat"⟩ },
         .num (.fin (-5)), "monthly", none, none⟩ none =
        .error ⟨"app.error.generic", some "invalid_period"⟩) ∧
    (∀ (opts2 : SalaryOptions) (reg2 : Option FormulaRegistry) (r : SalaryResult),
      (opts2.salaryAmount = .null ∨ opts2.salaryAmount = .emptyStr ∨
       opts2.salaryAmount.toNumber.isFiniteB = false ∨
       (∃ q, opts2.salaryAmount = .num (.fin q) ∧ q < 0) ∨
       (opts2.salaryPeriod ≠ "monthly" ∧ opts2.salaryPeriod ≠ "yearly")) →
      computeSalary opts2 reg2 ≠ .ok r) :=
  c9_salary_input_rejected
    ⟨some { countryCode := "SI", year := "2026",
            yearRules := { income_tax := some { type := some "flat", flat_rate := some (1 / 5) } },
            incomeTax := some { type := some "flat", flat_rate := some (1 / 5) },
            socialContributions := some ⟨[("health", { applies := some false })], none⟩,
            calcMode := some ⟨"SI", "2026", none, "flat"⟩ },
     .num (.fin (-5)), "monthly", none, none⟩ none
    { countryCode := "SI", year := "2026",
      yearRules := { income_tax := some { type := some "flat", flat_rate := some (1 / 5) } },
      incomeTax := some { type := some "flat", flat_rate := some (1 / 5) },
      socialContributions := some ⟨[("health", { applies := some false })], none⟩,
      calcMode := some ⟨"SI", "2026", none, "flat"⟩ }
    ⟨"SI", "2026", none, "flat"⟩ rfl (by decide) rfl (by decide)

/-! ## Claim C5: CalcMode consistency -/

/-- Destructor for a successful `Except` bind. -/
theorem exceptBind_ok {ε α β : Type} {x : Except ε α} {f : α → Except ε β} {b : β}
    (h : x >>= f = Except.ok b) : ∃ a, x = Except.ok a ∧ f a = Except.ok b := by
  cases x with
  | error e => exact absurd h (by simp [Bind.bind, Except.bind])
  | ok a =>
    refine ⟨a, rfl, ?_⟩
    simpa [Bind.bind, Except.bind] using h

/-- A context whose calcMode names a different country, for the C5
witness. -/
def c5BadCmCtx : TaxContext :=
  { countryCode := "SI", year := "2026",
    yearRules := { income_tax := some { type := some "flat", flat_rate := some (1 / 5) } },
    incomeTax := some { type := some "flat", flat_rate := some (1 / 5) },
    socialContributions := some ⟨[("health", { applies := some false })], none⟩,
    calcMode := some ⟨"AT", "2026", none, "flat"⟩ }

/-- A context manufactured with an empty-string tax class but a null
calcMode tax class: the two fields differ as values. -/
def c5MismatchCtx : TaxContext :=
  { countryCode := "SI", year := "2026",
    taxClass := some "",
    yearRules := { income_tax := some { type := some "flat", flat_rate := some (1 / 5) } },
    incomeTax := some { type := some "flat", flat_rate := some (1 / 5) },
    socialContributions := some ⟨[("health", { applies := some false })], none⟩,
    calcMode := some ⟨"SI", "2026", none, "flat"⟩ }

/-- Claim C5 (corrected), counterexample to the claim as stated: the
guard compares tax classes through `String(x || '')`, which identifies a
null calcMode tax class with an empty-string context tax class. This
manufactured context has `taxClass = ''` while `calcMode.taxClass` is
null — the fields differ — yet `computeSalary` accepts it and returns a
breakdown instead of rejecting it. -/
theorem c5_taxClass_normalization_counterexample :
    c5MismatchCtx.taxClass = some "" ∧
    c5MismatchCtx.calcMode.map CalcMode.taxClass = some none ∧
    (some "" : Option String) ≠ (none : Option String) ∧
    (computeSalary ⟨some c5MismatchCtx, .num (.fin 1000), "monthly", none, none⟩ none).isOk
      = true := by
  refine ⟨rfl, rfl, by decide, by decide⟩

/-- Claim C5, amended: every context built by `buildTaxContext` carries
a calcMode whose countryCode, year and taxClass equal the context's own
fields; and `computeSalary` rejects (never returns a breakdown for)
every context whose calcMode is missing, or differs on countryCode or
year, or differs on taxClass after reading a missing tax class as the
empty string — the single unrejected mismatch being the null versus
empty-string tax class the guard normalizes away. With the other guards
passing, the rejections carry the `missing_calc_mode` and
`calc_mode_mismatch` causes. -/
theorem c5_calcMode_consistency (countryRules : CountryRules) (copts : ContextOptions)
    (ctx0 : TaxContext) (hbuild : buildTaxContext countryRules copts = .ok ctx0)
    (options : SalaryOptions) (registry : Option FormulaRegistry) (ctx : TaxContext)
    (hctx : options.taxContext = some ctx) :
    (∃ cm, ctx0.calcMode = some cm ∧ cm.countryCode = ctx0.countryCode ∧
      cm.year = ctx0.year ∧ cm.taxClass = ctx0.taxClass) ∧
    (ctx.calcMode = none → ∀ r, computeSalary options registry ≠ .ok r) ∧
    (∀ cm, ctx.calcMode = some cm →
      (cm.countryCode ≠ ctx.countryCode ∨ cm.year ≠ ctx.year ∨
       cm.taxClass.getD "" ≠ ctx.taxClass.getD "") →
      ∀ r, computeSalary options registry ≠ .ok r) ∧
    (¬ (ctx.countryCode = "DE" ∧ ctx.yearRules.tax_classes.isSome ∧
        ctx.taxClass.getD "" = "") →
      (ctx.calcMode = none →
        computeSalary options registry = .error ⟨"app.error.generic", some "missing_calc_mode"⟩) ∧
      (∀ cm, ctx.calcMode = some cm →
        (cm.countryCode ≠ ctx.countryCode ∨ cm.year ≠ ctx.year ∨
         cm.taxClass.getD "" ≠ ctx.taxClass.getD "") →
        computeSalary options registry = .error ⟨"app.error.generic", some "calc_mode_mismatch"⟩)) := by
  refine ⟨?_, ?_, ?_, ?_⟩
  · simp only [buildTaxContext] at hbuild
    obtain ⟨yr, hyr, hbuild⟩ := exceptBind_ok hbuild
    obtain ⟨eff, heff, hbuild⟩ := exceptBind_ok hbuild
    obtain ⟨resolved, hres, hbuild⟩ := exceptBind_ok hbuild
    have hctx0 := (Except.ok.injEq _ _).mp hbuild
    rw [← hctx0]
    exact ⟨_, rfl, rfl, rfl, rfl⟩

  · intro hnone r hok
    by_cases hde : ctx.countryCode = "DE" ∧ ctx.yearRules.tax_classes.isSome ∧
        ctx.taxClass.getD "" = ""
    · simp only [computeSalary, hctx] at hok
      rw [if_pos hde] at hok
      exact Except.noConfusion hok
    · simp only [computeSalary, hctx, hnone] at hok
      rw [if_neg hde] at hok
      exact Except.noConfusion hok
  · intro cm hcm hmm r hok
    by_cases hde : ctx.countryCode = "DE" ∧ ctx.yearRules.tax_classes.isSome ∧
        ctx.taxClass.getD "" = ""
    · simp only [computeSalary, hctx] at hok
      rw [if_pos hde] at hok
      exact Except.noConfusion hok
    · simp only [computeSalary, hctx, hcm] at hok
      rw [if_neg hde, if_pos hmm] at hok
      exact Except.noConfusion hok
  · intro hde
    refine ⟨?_, ?_⟩
    · intro hnone
      simp only [computeSalary, hctx, hnone]
      rw [if_neg hde]
      rfl
    · intro cm hcm hmm
      simp only [computeSalary, hctx, hcm]
      rw [if_neg hde, if_pos hmm]
      rfl

/-- The context the C5 witness document resolves to. -/
def c5GoodCtx : TaxContext :=
  { countryCode := "SI", countryName := none, currency := none,
    year := "2026", region := none, taxClass := none,
    yearRules := { income_tax := some { type := some "flat", flat_rate := some 1 } },
    incomeTax := some { type := some "flat", flat_rate := some 1 },
    spainRegionTax := none,
    socialContributions := some {},
    otherTaxes := [], calculationFlags := {}, childrenCount := 0,
    calcMode := some ⟨"SI", "2026", none, "flat"⟩ }

/-- Witness for C5: a one-year flat-tax document builds a matching
calcMode, and a context with a wrong-country calcMode is rejected. -/
theorem c5_calcMode_consistency_witness :
    (∃ cm, c5GoodCtx.calcMode = some cm ∧
      cm.countryCode = c5GoodCtx.countryCode ∧ cm.year = c5GoodCtx.year ∧
      cm.taxClass = c5GoodCtx.taxClass) ∧
    ((TaxContext.calcMode c5BadCmCtx = none) →
      ∀ r, computeSalary ⟨some c5BadCmCtx, .num (.fin 1000), "monthly", none, none⟩ none ≠ .ok r) ∧
    (∀ cm, TaxContext.calcMode c5BadCmCtx = some cm →
      (cm.countryCode ≠ c5BadCmCtx.countryCode ∨ cm.year ≠ c5BadCmCtx.year ∨
       cm.taxClass.getD "" ≠ c5BadCmCtx.taxClass.getD "") →
      ∀ r, computeSalary ⟨some c5BadCmCtx, .num (.fin 1000), "monthly", none, none⟩ none ≠ .ok r) ∧
    (¬ (c5BadCmCtx.countryCode = "DE" ∧ c5BadCmCtx.yearRules.tax_classes.isSome ∧
        c5BadCmCtx.taxClass.getD "" = "") →
      (TaxContext.calcMode c5BadCmCtx = none →
        computeSalary ⟨some c5BadCmCtx, .num (.fin 1000), "monthly", none, none⟩ none =
          .error ⟨"app.error.generic", some "missing_calc_mode"⟩) ∧
      (∀ cm, TaxContext.calcMode c5BadCmCtx = some cm →
        (cm.countryCode ≠ c5BadCmCtx.countryCode ∨ cm.year ≠ c5BadCmCtx.year ∨
         cm.taxClass.getD "" ≠ c5BadCmCtx.taxClass.getD "") →
        computeSalary ⟨some c5BadCmCtx, .num (.fin 1000), "monthly", none, none⟩ none =
          .error ⟨"app.error.generic", some "calc_mode_mismatch"⟩)) := by
  exact c5_calcMode_consistency
    { years := [("2026",
        { income_tax := some { type := some "flat", flat_rate := some 1 } })] }
    { countryCode := "si", year := "2026" }
    c5GoodCtx rfl
    ⟨some c5BadCmCtx, .num (.fin 1000), "monthly", none, none⟩ none c5BadCmCtx rfl

/-! ## Claim C3: Austrian special-payment split and preferential cap -/

/-- `special_payments` configuration for the C3 example: 13th/14th
salaries enabled over 12 regular months, with a flat 6% preferential
schedule. -/
def c3SpCfg : SpecialPayments :=
  { enabled := some true
    regular_months := some 12
    income_tax := some { type := some "flat", flat_rate := some (6 / 100) } }

/-- Austrian context for the C3 example: flat 20% regular schedule,
no contribution schemes, matching calcMode. -/
def c3Ctx : TaxContext :=
  { countryCode := "AT", year := "2026",
    yearRules := { income_tax := some { type := some "flat", flat_rate := some (1 / 5) },
                   special_payments := some c3SpCfg },
    incomeTax := some { type := some "flat", flat_rate := some (1 / 5) },
    socialContributions := some {},
    calcMode := some ⟨"AT", "2026", none, "flat"⟩ }

set_option maxHeartbeats 2000000 in
/-- Claim C3: with `regular_months = 12`, monthly gross 3000 and
`salaryMonths = 14`, the split yields a regular annual gross of 36000
and a special annual gross of 6000, and running `computeSalary` on an
Austrian context with this configuration produces a special block whose
taxable base, cap base and sixth all equal 6000 with no overflow; and in
general, for every successful run of the special-payment tax branch with
non-negative regular gross, the preferential cap base equals
`min (special taxable base) (regular gross / 6)` and the overflow above
the cap is added back to the regular taxable base handed to the regular
schedule. -/
theorem c3_at_special_payment_split
    (spc : SpecialPayments) (ctx : TaxContext) (yr : YearRules)
    (reg spec allow : ℚ) (cr cs : ContribResult) (d : Option ℤ) (mode : String)
    (registry : Option FormulaRegistry) (blk : IncomeTaxBlock)
    (hreg : 0 ≤ reg)
    (hok : computeATSpecialIncomeTax spc ctx yr reg spec allow cr cs d mode registry
      = .ok blk) :
    (atAnnualSplit c3SpCfg (.num (.fin 3000)) "monthly" (some (.fin 14)) 36000 3000
      = (42000, 3000, some (36000, 6000))) ∧
    ((computeSalary ⟨some c3Ctx, .num (.fin 3000), "monthly", none, some (.fin 14)⟩ none).map
        (fun r => r.incomeTax.special.map
          (fun s => (s.taxableBase, s.capBase, s.sixth, s.overflowToRegular)))
      = .ok (some (6000, 6000, 6000, 0))) ∧
    ∃ s, blk.special = some s ∧
      s.taxableBase = max 0 (spec - cs.deductibleEmployeeTotal) ∧
      s.sixth = reg / 6 ∧
      s.capBase = min s.taxableBase (reg / 6) ∧
      s.overflowToRegular = s.taxableBase - s.capBase ∧
      ∃ mainRules mainTax, ctx.incomeTax = some mainRules ∧ blk.main = some mainTax ∧
        computeTaxByRules
          (max 0 (max 0 (reg - cr.deductibleEmployeeTotal - allow) + s.overflowToRegular))
          (some mainRules) d mode
          (some ⟨ctx.countryCode, ctx.taxClass, ctx.childrenCount, some yr, none⟩) registry
          = .ok mainTax := by
  have h14 : (⌊(14 : ℚ) + 1 / 2⌋ : ℤ) = 14 := by
    rw [Int.floor_eq_iff]
    norm_num
  refine ⟨?_, ?_, ?_⟩
  · norm_num [atAnnualSplit, c3SpCfg, qOr, jsRound_eq, h14, max_def,
      JSInput.toNumber, JSNumber.toQ]
  · simp [computeSalary, c3Ctx, c3SpCfg, toAnnual, toMonthly, atAnnualSplit, qOr, strOr,
      jsRound_eq, h14, cloneSocialWithCeilingCap, computeContributionsAnnual,
      mergeSplitContrib, extractAnnualAllowances, computeATSpecialIncomeTax,
      computeTaxByRules, assembleSalaryResult, Bind.bind, Except.bind, Except.map,
      Pure.pure, Except.pure, JSInput.toNumber, JSNumber.toQ]
    norm_num [max_def, min_def]
    simp
  · have hsix : max 0 (reg / 6) = reg / 6 := max_eq_right (by positivity)
    cases hmr : ctx.incomeTax with
    | none =>
      simp only [computeATSpecialIncomeTax, hmr] at hok
      exact Except.noConfusion hok
    | some mainRules =>
      simp only [computeATSpecialIncomeTax, hmr] at hok
      obtain ⟨regularTax, hr1, hok⟩ := exceptBind_ok hok
      obtain ⟨specialTax, hr2, hok⟩ := exceptBind_ok hok
      have hblk := (Except.ok.injEq _ _).mp hok
      subst hblk
      refine ⟨_, rfl, rfl, hsix, ?_, ?_, mainRules, regularTax, rfl, rfl, hr1⟩
      · show min (max 0 (spec - cs.deductibleEmployeeTotal)) (max 0 (reg / 6))
          = min (max 0 (spec - cs.deductibleEmployeeTotal)) (reg / 6)
        rw [hsix]
      · exact max_eq_right (sub_nonneg.mpr (min_le_left _ _))

/-- Context for the C3 witness: an Austrian context whose regular
schedule is an empty progressive rule set. -/
def c3WCtx : TaxContext :=
  { countryCode := "AT", year := "2026", incomeTax := some {} }

/-- The income-tax block the C3 witness run produces. -/
def c3WBlk : IncomeTaxBlock :=
  { total := 0, main := some ⟨0, "progressive", none⟩,
    special := some ⟨0, 0, 0, 0, 0, 0, 0⟩ }

/-- Witness for C3: the special-payment tax branch at zero gross with
empty contribution results satisfies the cap/overflow relations. -/
theorem c3_at_special_payment_split_witness :
    (0 : ℚ) ≤ 0 ∧
    computeATSpecialIncomeTax {} c3WCtx {} 0 0 0 {} {} (some 2) "nearest_cent" none
      = .ok c3WBlk ∧
    (∃ s, c3WBlk.special = some s ∧
      s.taxableBase = max 0 (0 - ({} : ContribResult).deductibleEmployeeTotal) ∧
      s.sixth = 0 / 6 ∧
      s.capBase = min s.taxableBase (0 / 6) ∧
      s.overflowToRegular = s.taxableBase - s.capBase ∧
      ∃ mainRules mainTax, c3WCtx.incomeTax = some mainRules ∧ c3WBlk.main = some mainTax ∧
        computeTaxByRules
          (max 0 (max 0 (0 - ({} : ContribResult).deductibleEmployeeTotal - 0)
            + s.overflowToRegular))
          (some mainRules) (some 2) "nearest_cent"
          (some ⟨c3WCtx.countryCode, c3WCtx.taxClass, c3WCtx.childrenCount, some {}, none⟩)
          none = .ok mainTax) := by
  have hrc : roundCurrency 0 (some 2) "nearest_cent" = 0 := by
    show ((jsRound ((0 + jsEpsilon) * 10 ^ roundDecimals (some 2)) : ℤ) : ℚ) /
      10 ^ roundDecimals (some 2) = 0
    rw [show roundDecimals (some 2) = 2 from rfl]
    norm_num [jsRound_eq, jsEpsilon, Int.floor_eq_iff]
  have hok : computeATSpecialIncomeTax {} c3WCtx {} 0 0 0 {} {} (some 2) "nearest_cent" none
      = .ok c3WBlk := by
    simp [computeATSpecialIncomeTax, c3WCtx, c3WBlk, computeTaxByRules, strOr, qOr,
      progressiveTaxLoop, Bind.bind, Except.bind, Pure.pure, Except.pure, hrc]
  exact ⟨le_refl 0, hok,
    (c3_at_special_payment_split {} c3WCtx {} 0 0 0 {} {} (some 2) "nearest_cent" none
      c3WBlk (le_refl 0) hok).2.2⟩

/-! ## Claim C8: combined entry point equals build-then-compute -/

/-- The spec-side composition for C8: first call `buildTaxContext` on
the same context inputs (forwarding `childrenCount`), then call
`computeSalary` with that explicit tax context and the same salary
inputs. -/
def buildThenComputeSalary (countryRules : CountryRules)
    (options : CombinedOptions) (registry : Option FormulaRegistry) :
    Except CalcError SalaryResult := do
  let taxContext ← buildTaxContext countryRules
    ⟨options.countryCode, options.year, options.region, options.taxClass,
     options.childrenCount⟩
  computeSalary
    ⟨some taxContext, options.salaryAmount, options.salaryPeriod,
     options.benefitsAnnual, options.salaryMonths⟩ registry

/-- Claim C8: for every rule document, combined input record and formula
registry, the combined entry point `computeSalaryWithContext` returns
exactly the result of building the tax context from the same context
inputs and then running `computeSalary` on it with the same salary
inputs. The two paths treat `childrenCount` differently in the source
(`Number(x || 0)` in the loader versus `x != null ? Number(x) : 0` in
the engine), but the two coercions agree on every value. -/
theorem c8_combined_entry_refinement (countryRules : CountryRules)
    (options : CombinedOptions) (registry : Option FormulaRegistry) :
    computeSalaryWithContext countryRules options registry
      = buildThenComputeSalary countryRules options registry := by
  have hch : Option.getD options.childrenCount 0 = qOr options.childrenCount 0 := by
    cases options.childrenCount with
    | none => rfl
    | some q =>
      by_cases hq : q = 0
      · simp [qOr, hq]
      · simp [qOr, hq]
  simp only [computeSalaryWithContext, buildThenComputeSalary, buildTaxContext,
    Bind.bind, Except.bind]
  cases resolveYearRules countryRules options.year with
  | error e => rfl
  | ok yr =>
    dsimp only
    cases applyDETaxClass (jsToUpper options.countryCode) (strOrNull options.taxClass) yr
        yr.income_tax (yr.social_contributions.getD {}) (yr.other_taxes.getD []) with
    | error e => rfl
    | ok eff =>
      dsimp only
      cases resolveCountryIncomeTax (jsToUpper options.countryCode) yr
          (strOrNull options.region) eff.1 with
      | error e => rfl
      | ok resolved =>
        dsimp only
        rw [hch]
        rfl

/-! ## Claim C6: deepMerge non-mutation and replacement behaviour -/

theorem Heap.setKey_next (h : Heap) (a : ℕ) (k : String) (v : JSVal) :
    (h.setKey a k v).next = h.next := rfl

theorem Heap.setKey_mem_ne (h : Heap) (a : ℕ) (k : String) (v : JSVal) {x : ℕ}
    (hx : x ≠ a) : (h.setKey a k v).mem x = h.mem x := by
  simp [Heap.setKey, hx]

theorem Heap.setKey_wf (h : Heap) (a : ℕ) (k : String) (v : JSVal) (hw : h.wf) :
    (h.setKey a k v).wf := by
  intro x hx
  by_cases hxa : x = a
  · subst hxa
    simp [Heap.setKey, hw x hx]
  · simp [Heap.setKey, hxa, hw x hx]

/-- Frame property of the override-key loop: with the recursive merge
behaving frame-correctly at the given fuel, `mergeKeys` only ever writes
to the result node `a` and to fresh addresses. -/
theorem mergeKeys_frame (fuel : ℕ)
    (hP : ∀ h base override h' v', deepMergeGo fuel h base override = some (h', v') →
      h.next ≤ h'.next ∧ (∀ x, x < h.next → h'.mem x = h.mem x) ∧ (Heap.wf h → Heap.wf h'))
    (ks : List String) :
    ∀ h a override h', a < h.next → mergeKeys fuel h a override ks = some h' →
      h.next ≤ h'.next ∧ (∀ x, x < h.next → x ≠ a → h'.mem x = h.mem x) ∧
      (Heap.wf h → Heap.wf h') := by
  induction ks with
  | nil =>
    intro h a override h' _ hm
    simp only [mergeKeys, Option.some.injEq] at hm
    subst hm
    exact ⟨le_refl _, fun _ _ _ => rfl, fun w => w⟩
  | cons k ks ih =>
    intro h a override h' ha hm
    simp only [mergeKeys] at hm
    by_cases hc : truthyVal (getKey h (.ref a) k) = true ∧
        isPlainObjVal h (getKey h (.ref a) k) = true ∧
        truthyVal (getKey h override k) = true ∧
        isPlainObjVal h (getKey h override k) = true
    · rw [if_pos hc] at hm
      cases hdm : deepMergeGo fuel h (getKey h (.ref a) k) (getKey h override k) with
      | none => rw [hdm] at hm; exact Option.noConfusion hm
      | some hmres =>
        rw [hdm] at hm
        obtain ⟨hn1, hf1, hw1⟩ := hP h _ _ hmres.1 hmres.2 hdm
        have ha2 : a < (hmres.1.setKey a k hmres.2).next := lt_of_lt_of_le ha hn1
        obtain ⟨hn2, hf2, hw2⟩ := ih (hmres.1.setKey a k hmres.2) a override h' ha2 hm
        refine ⟨le_trans hn1 hn2, ?_, ?_⟩
        · intro x hx hxa
          rw [hf2 x (lt_of_lt_of_le hx hn1) hxa, Heap.setKey_mem_ne _ _ _ _ hxa,
            hf1 x hx]
        · intro hw
          exact hw2 (Heap.setKey_wf _ _ _ _ (hw1 hw))
    · rw [if_neg hc] at hm
      have ha2 : a < (h.setKey a k (getKey h override k)).next := ha
      obtain ⟨hn2, hf2, hw2⟩ := ih (h.setKey a k (getKey h override k)) a override h' ha2 hm
      refine ⟨hn2, ?_, ?_⟩
      · intro x hx hxa
        rw [hf2 x hx hxa, Heap.setKey_mem_ne _ _ _ _ hxa]
      · intro hw
        exact hw2 (Heap.setKey_wf _ _ _ _ hw)

/-- Frame property of `deepMergeGo`: a successful merge never changes
any address that was live before the call, only allocates, and preserves
heap well-formedness. -/
theorem deepMergeGo_frame (fuel : ℕ) :
    ∀ h base override h' v', deepMergeGo fuel h base override = some (h', v') →
      h.next ≤ h'.next ∧ (∀ x, x < h.next → h'.mem x = h.mem x) ∧
      (Heap.wf h → Heap.wf h') := by
  induction fuel with
  | zero =>
    intro h base override h' v' hm
    simp [deepMergeGo] at hm
  | succ fuel ihP =>
    intro h base override h' v' hm
    simp only [deepMergeGo] at hm
    by_cases hov : truthyVal override = false
    · rw [if_pos hov] at hm
      obtain ⟨hh, _⟩ := Prod.mk.injEq .. ▸ (Option.some.injEq _ _).mp hm
      subst hh
      exact ⟨le_refl _, fun _ _ => rfl, fun w => w⟩
    · rw [if_neg hov] at hm
      by_cases hb : truthyVal base = false
      · rw [if_pos hb] at hm
        obtain ⟨hh, _⟩ := Prod.mk.injEq .. ▸ (Option.some.injEq _ _).mp hm
        subst hh
        exact ⟨le_refl _, fun _ _ => rfl, fun w => w⟩
      · rw [if_neg hb] at hm
        cases hmk : mergeKeys fuel
            ⟨h.next + 1, fun x => if x = h.next then
              some ⟨isArrayVal h base, spreadFields h base⟩ else h.mem x⟩
            h.next override (keysOfVal h override) with
        | none => rw [hmk] at hm; exact Option.noConfusion hm
        | some h1 =>
          rw [hmk] at hm
          obtain ⟨hh, _⟩ := Prod.mk.injEq .. ▸ (Option.some.injEq _ _).mp hm
          subst hh
          obtain ⟨hn2, hf2, hw2⟩ := mergeKeys_frame fuel ihP (keysOfVal h override)
            ⟨h.next + 1, fun x => if x = h.next then
              some ⟨isArrayVal h base, spreadFields h base⟩ else h.mem x⟩
            h.next override h1 (Nat.lt_succ_self _) hmk
          refine ⟨le_trans (Nat.le_succ _) hn2, ?_, ?_⟩
          · intro x hx
            rw [hf2 x (lt_trans hx (Nat.lt_succ_self _)) (Nat.ne_of_lt hx)]
            simp [Nat.ne_of_lt hx]
          · intro hw
            refine hw2 ?_
            intro y hy
            have hy1 : h.next ≤ y := le_trans (Nat.le_succ _) hy
            have hy2 : y ≠ h.next := by
              intro he
              rw [he] at hy
              exact absurd hy (by simp)
            simp [hy2, hw y hy1]

/-- A value keeps representing the same tree across any heap evolution
that preserves every live address. -/
theorem reprVal_of_frame {h h' : Heap} (hwf : Heap.wf h)
    (hmem : ∀ x, x < h.next → h'.mem x = h.mem x) :
    ∀ {v t}, ReprVal h v t → ReprVal h' v t := by
  intro v t hr
  induction hr with
  | prim p => exact .prim p
  | ref a ia fs ts ha hnd hlen hk _ ihv =>
    have halt : a < h.next := by
      by_contra hge
      push_neg at hge
      rw [hwf a hge] at ha
      exact Option.noConfusion ha
    exact .ref a ia fs ts (by rw [hmem a halt]; exact ha) hnd hlen hk ihv

theorem lookupA_upsert_self {α : Type} (l : List (String × α)) (k : String) (v : α) :
    lookupA (upsert l k v) k = some v := by
  induction l with
  | nil => simp [upsert, lookupA]
  | cons kv rest ih =>
    obtain ⟨k0, v0⟩ := kv
    by_cases hk : k0 = k
    · simp [upsert, hk, lookupA]
    · simp [upsert, hk, lookupA, ih]

theorem lookupA_upsert_ne {α : Type} (l : List (String × α)) (k k' : String) (v : α)
    (hne : k' ≠ k) : lookupA (upsert l k v) k' = lookupA l k' := by
  have hne' : ¬ k = k' := fun h => hne h.symm
  induction l with
  | nil => simp [upsert, lookupA, hne']
  | cons kv rest ih =>
    obtain ⟨k0, v0⟩ := kv
    by_cases hk : k0 = k
    · subst hk
      simp [upsert, lookupA, hne']
    · by_cases hk' : k0 = k'
      · simp [upsert, hk, lookupA, hk', hne]
      · simp [upsert, hk, lookupA, hk', ih]

theorem lookupA_eq_none {α : Type} (l : List (String × α)) (k : String)
    (hk : k ∉ l.map Prod.fst) : lookupA l k = none := by
  induction l with
  | nil => rfl
  | cons kv rest ih =>
    obtain ⟨k0, v0⟩ := kv
    simp only [List.map_cons, List.mem_cons] at hk
    push_neg at hk
    have h1 : ¬ k0 = k := fun h => hk.1 h.symm
    simp [lookupA, h1, ih hk.2]

/-- Lookup characterization of the override-key loop on trees: with
unique override keys, a key absent from the override keeps its base
binding; a key present in the override is bound to the recursive merge
when both sides are truthy plain objects, and to the override value
(full replacement, in particular for arrays and primitives) otherwise. -/
theorem mergeJSKeys_lookup (ovf : List (String × JSTree)) :
    ∀ acc, (ovf.map Prod.fst).Nodup → ∀ k,
      lookupA (mergeJSKeys acc ovf) k =
        match lookupA ovf k with
        | none => lookupA acc k
        | some ov =>
          some (if truthyTree ((lookupA acc k).getD (.prim .undef)) = true ∧
                   isPlainTree ((lookupA acc k).getD (.prim .undef)) = true ∧
                   truthyTree ov = true ∧ isPlainTree ov = true
                then mergeJS ((lookupA acc k).getD (.prim .undef)) ov else ov) := by
  induction ovf with
  | nil =>
    intro acc _ k
    simp [mergeJSKeys, lookupA]
  | cons kv rest ih =>
    obtain ⟨k0, ov0⟩ := kv
    intro acc hnd k
    have hk0 : k0 ∉ rest.map Prod.fst := (List.nodup_cons.mp (by simpa using hnd)).1
    have hnd' : (rest.map Prod.fst).Nodup := (List.nodup_cons.mp (by simpa using hnd)).2
    simp only [mergeJSKeys]
    by_cases hc : truthyTree ((lookupA acc k0).getD (.prim .undef)) = true ∧
        isPlainTree ((lookupA acc k0).getD (.prim .undef)) = true ∧
        truthyTree ov0 = true ∧ isPlainTree ov0 = true
    · rw [if_pos hc, ih _ hnd' k]
      by_cases hkk : k = k0
      · subst hkk
        rw [lookupA_eq_none rest k hk0]
        simp [lookupA, lookupA_upsert_self, hc]
      · have hkk' : ¬ k0 = k := fun h => hkk h.symm
        have hx : lookupA ((k0, ov0) :: rest) k = lookupA rest k := by
          simp [lookupA, hkk']
        rw [hx, lookupA_upsert_ne _ _ _ _ hkk]
    · rw [if_neg hc, ih _ hnd' k]
      by_cases hkk : k = k0
      · subst hkk
        rw [lookupA_eq_none rest k hk0]
        simp [lookupA, lookupA_upsert_self, hc]
      · have hkk' : ¬ k0 = k := fun h => hkk h.symm
        have hx : lookupA ((k0, ov0) :: rest) k = lookupA rest k := by
          simp [lookupA, hkk']
        rw [hx, lookupA_upsert_ne _ _ _ _ hkk]

/-- Tree-level base for the C6 counterexample: the array `[1, 2, 3]`. -/
def c6Base : JSTree :=
  .node true [("0", .prim (.number 1)), ("1", .prim (.number 2)), ("2", .prim (.number 3))]

/-- Tree-level override for the C6 counterexample: the array `[9]`. -/
def c6Override : JSTree := .node true [("0", .prim (.number 9))]

/-- Heap holding the two arrays at addresses 0 and 1. -/
def c6Heap : Heap :=
  ⟨2, fun x =>
    if x = 0 then
      some ⟨true, [("0", .prim (.number 1)), ("1", .prim (.number 2)),
                   ("2", .prim (.number 3))]⟩
    else if x = 1 then some ⟨true, [("0", .prim (.number 9))]⟩
    else none⟩

/-- Claim C6, counterexample to the claim as stated: a top-level array
override does not replace the base array. Merging `[1, 2, 3]` with `[9]`
index-merges into `[9, 2, 3]` (both on trees and in the heap model,
where the result is a fresh node and the operands stay untouched),
instead of returning the override `[9]`. -/
theorem c6_top_level_array_counterexample :
    mergeJS c6Base c6Override
      = .node true [("0", .prim (.number 9)), ("1", .prim (.number 2)),
                    ("2", .prim (.number 3))] ∧
    mergeJS c6Base c6Override ≠ c6Override ∧
    ((deepMergeGo 2 c6Heap (.ref 0) (.ref 1)).map
        (fun r => (r.2, r.1.mem 2, r.1.mem 0, r.1.mem 1)))
      = some (.ref 2,
          some ⟨true, [("0", .prim (.number 9)), ("1", .prim (.number 2)),
                       ("2", .prim (.number 3))]⟩,
          c6Heap.mem 0, c6Heap.mem 1) := by
  have h1 : mergeJS c6Base c6Override
      = .node true [("0", .prim (.number 9)), ("1", .prim (.number 2)),
                    ("2", .prim (.number 3))] := by
    simp [mergeJS, mergeJSKeys, c6Base, c6Override, truthyTree, treeIsArray,
      treeSpreadFields, isPlainTree, lookupA, upsert]
  refine ⟨h1, ?_, ?_⟩
  · rw [h1, c6Override]
    intro heq
    simp at heq
  · simp [deepMergeGo, mergeKeys, c6Heap, getKey, spreadFields, keysOfVal, isArrayVal,
      isPlainObjVal, truthyVal, truthyPrim, Heap.setKey, lookupA, upsert]

/-- Claim C6 (amended): `deepMerge` never mutates the base — every
address live before the call is untouched, the heap only grows, and the
base keeps representing the very same tree — and an absent (or any
falsy) override returns the base unchanged. On the value level the
merge of two objects is the base copy updated key-by-key from the
override: a key present on both sides as a truthy non-array object is
merged recursively, and every other override key (arrays and primitives
included) fully replaces the base entry. Top-level arrays, however, are
index-merged rather than replaced (see the counterexample). -/
theorem c6_deep_merge_behaviour :
    (∀ fuel h base override h' v', Heap.wf h →
        deepMergeGo fuel h base override = some (h', v') →
        (∀ x, x < h.next → h'.mem x = h.mem x) ∧ h.next ≤ h'.next ∧ Heap.wf h' ∧
        (∀ t, ReprVal h base t → ReprVal h' base t)) ∧
    (∀ fuel h base p, truthyPrim p = false →
        deepMergeGo (fuel + 1) h base (.prim p) = some (h, base)) ∧
    (∀ base p, truthyPrim p = false → mergeJS base (.prim p) = base) ∧
    (∀ bi bfs oi ofs, mergeJS (.node bi bfs) (.node oi ofs)
        = .node bi (mergeJSKeys bfs ofs)) ∧
    (∀ acc ovf, (List.map Prod.fst ovf).Nodup → ∀ k,
        lookupA (mergeJSKeys acc ovf) k =
          match lookupA ovf k with
          | none => lookupA acc k
          | some ov =>
            some (if truthyTree ((lookupA acc k).getD (.prim .undef)) = true ∧
                     isPlainTree ((lookupA acc k).getD (.prim .undef)) = true ∧
                     truthyTree ov = true ∧ isPlainTree ov = true
                  then mergeJS ((lookupA acc k).getD (.prim .undef)) ov else ov)) := by
  refine ⟨?_, ?_, ?_, ?_, ?_⟩
  · intro fuel h base override h' v' hwf hm
    obtain ⟨hn, hf, hw⟩ := deepMergeGo_frame fuel h base override h' v' hm
    exact ⟨hf, hn, hw hwf, fun t ht => reprVal_of_frame hwf hf ht⟩
  · intro fuel h base p hp
    simp [deepMergeGo, truthyVal, hp]
  · intro base p hp
    simp [mergeJS, truthyTree, hp]
  · intro bi bfs oi ofs
    simp [mergeJS, truthyTree, treeIsArray, treeSpreadFields]
  · exact fun acc ovf hnd k => mergeJSKeys_lookup ovf acc hnd k

end SalaryCalc